import Mathlib

/-!
# pbxTeleporter (Windows): serial reader, frame store and UDP responder

A shallow embedding of `pbxSerial.cpp`, `pbxTeleporter.h` and `udpServer.cpp`.

* The serial device is a finite list of bytes still to arrive.  A read that asks
  for more bytes than are left never returns (`ReadFile` with zero timeouts
  blocks): the embedding reports it as `none` and the reader loop stops there.
* Frame-buffer memory is a function from byte offsets (relative to
  `pixel_buffer`) to bytes; offsets at or above `buffer_size` are memory past the
  allocation.  `pixel_ptr` is kept as the offset `pixel_ptr - pixel_buffer`.
* `MAX_PIXELS` is used by `pbxSerial.cpp`, and no header of the Windows sources
  defines it: every function that uses it takes it as a parameter.
* The reader loop is total: every pass reads at least one byte, and the loop
  ends at the first read that finds the input used up (`serialReadLoop_fuel`).
-/

namespace PbxTeleporter

/-- One `uint8_t`. -/
abbrev Byte := Fin 256

/-- The constant `DEFAULT_MAX_PIXELS` of `pbxTeleporter.h`. -/
def DEFAULT_MAX_PIXELS : Nat := 2048

/-- Number of values of a `uint16_t`. -/
def UINT16_SIZE : Nat := 65536

/-- Number of values of a `UINT` (32 bits). -/
def UINT_SIZE : Nat := 4294967296

/-- The record types of `enum RecordType`. -/
def SET_CHANNEL_WS2812 : Nat := 1
/-- Record type 2. -/
def DRAW_ALL : Nat := 2
/-- Record type 3. -/
def SET_CHANNEL_APA102_DATA : Nat := 3
/-- Record type 4. -/
def SET_CHANNEL_APA102_CLOCK : Nat := 4

/-- The frame-store fields of `class pbxTeleporterData`. -/
structure pbxTeleporterData where
  /-- bytes of valid pixel data in the frame buffer -/
  dataReady : Nat
  /-- size of memory allocated for pixel buffer -/
  buffer_size : Nat
  /-- memory starting at `pixel_buffer`, by byte offset -/
  pixel_buffer : Nat → Byte
  /-- the offset `pixel_ptr - pixel_buffer` -/
  pixel_ptr : Nat

/-- Method `calcDataSize`: `dataReady = (UINT)(pixel_ptr - pixel_buffer)`. -/
def calcDataSize (t : pbxTeleporterData) : pbxTeleporterData :=
  { t with dataReady := t.pixel_ptr % UINT_SIZE }

/-- Method `isDataReady`. -/
def isDataReady (t : pbxTeleporterData) : Bool := decide (t.dataReady > 0)

/-- Method `getDataReady`. -/
def getDataReady (t : pbxTeleporterData) : Nat := t.dataReady

/-- Method `resetPixelBuffer`: `pixel_ptr = pixel_buffer`. -/
def resetPixelBuffer (t : pbxTeleporterData) : pbxTeleporterData :=
  { t with pixel_ptr := 0 }

/-- The bytes stored at offsets `off .. off + n - 1` of a memory. -/
def memRead (mem : Nat → Byte) (off n : Nat) : List Byte :=
  (List.range n).map (fun i => mem (off + i))

/-- Store `data` at offsets `off ..` of a memory (what a read into `buf` does). -/
def memWrite (mem : Nat → Byte) (off : Nat) (data : List Byte) : Nat → Byte :=
  fun i => if off ≤ i ∧ i < off + data.length then data.getD (i - off) 0 else mem i

/-- Function `readOneByte`: the next byte of the serial stream, `none` when the
read blocks for want of input. -/
def readOneByte (input : List Byte) : Option (Byte × List Byte) :=
  match input with
  | [] => none
  | b :: rest => some (b, rest)

/-- Function `readBytes(buf, uint16_t size)`: the next `size` bytes of the serial
stream and what follows them, `none` when the read blocks for want of input. -/
def readBytes (size : Nat) (input : List Byte) : Option (List Byte × List Byte) :=
  if size % UINT16_SIZE ≤ input.length then
    some (input.take (size % UINT16_SIZE), input.drop (size % UINT16_SIZE))
  else none

/-- Function `readMagicWord`: `true` when the next four bytes are "UPXL"; stops
reading at the first byte that differs. -/
def readMagicWord (input : List Byte) : Option (Bool × List Byte) :=
  match readOneByte input with
  | none => none
  | some (b0, r0) =>
    if b0 ≠ 85 then some (false, r0) else
    match readOneByte r0 with
    | none => none
    | some (b1, r1) =>
      if b1 ≠ 80 then some (false, r1) else
      match readOneByte r1 with
      | none => none
      | some (b2, r2) =>
        if b2 ≠ 88 then some (false, r2) else
        match readOneByte r2 with
        | none => none
        | some (b3, r3) =>
          if b3 ≠ 76 then some (false, r3) else some (true, r3)

/-- Function `crcCheck`: read and discard a 32-bit CRC. -/
def crcCheck (t : pbxTeleporterData) (input : List Byte) :
    pbxTeleporterData × Option (List Byte) :=
  match readBytes 4 input with
  | none => (t, none)
  | some (_, rest) => (t, some rest)

/-- The struct `PBFrameHeader` (packed, 2 bytes). -/
structure PBFrameHeader where
  channel : Nat
  command : Nat

/-- A `PBFrameHeader` as laid out in the two bytes read over it. -/
def PBFrameHeader.ofBytes (d : List Byte) : PBFrameHeader :=
  { channel := (d.getD 0 0).val, command := (d.getD 1 0).val }

/-- The struct `PBWS2812Channel` (packed, 4 bytes). -/
structure PBWS2812Channel where
  numElements : Nat
  colorOrders : Nat
  pixels : Nat

/-- A `PBWS2812Channel` as laid out in the four bytes read over it
(little-endian `uint16_t`). -/
def PBWS2812Channel.ofBytes (d : List Byte) : PBWS2812Channel :=
  { numElements := (d.getD 0 0).val
    colorOrders := (d.getD 1 0).val
    pixels := (d.getD 2 0).val + 256 * (d.getD 3 0).val }

/-- The struct `PBAPA102DataChannel` (packed, 7 bytes). -/
structure PBAPA102DataChannel where
  frequency : Nat
  colorOrders : Nat
  pixels : Nat

/-- A `PBAPA102DataChannel` as laid out in the seven bytes read over it
(little-endian `uint32_t` and `uint16_t`). -/
def PBAPA102DataChannel.ofBytes (d : List Byte) : PBAPA102DataChannel :=
  { frequency := (d.getD 0 0).val + 256 * (d.getD 1 0).val + 65536 * (d.getD 2 0).val
      + 16777216 * (d.getD 3 0).val
    colorOrders := (d.getD 4 0).val
    pixels := (d.getD 5 0).val + 256 * (d.getD 6 0).val }

/-- Function `doSetChannelWS2812`: read pixel data in WS2812 format. -/
def doSetChannelWS2812 (MAX_PIXELS : Nat) (t : pbxTeleporterData) (input : List Byte) :
    pbxTeleporterData × Option (List Byte) :=
  match readBytes 4 input with
  | none => (t, none)
  | some (d, r) =>
    let ch := PBWS2812Channel.ofBytes d
    if ch.pixels ≠ 0 ∧ ch.numElements = 3 ∧ ch.pixels ≤ MAX_PIXELS then
      let data_length := (ch.pixels * ch.numElements) % UINT16_SIZE
      match readBytes data_length r with
      | none => (t, none)
      | some (data, r1) =>
        crcCheck { t with pixel_buffer := memWrite t.pixel_buffer t.pixel_ptr data
                          pixel_ptr := t.pixel_ptr + data_length } r1
    else crcCheck t r

/-- The `for` loop of `doSetChannelAPA102`, with `n` pixels still to read. -/
def apa102Pixels : Nat → pbxTeleporterData → List Byte →
    pbxTeleporterData × Option (List Byte)
  | 0, t, input => (t, some input)
  | n + 1, t, input =>
    match readOneByte input with
    | none => (t, none)
    | some (_, r) =>
      match readBytes 3 r with
      | none => (t, none)
      | some (rgb, r1) =>
        apa102Pixels n { t with pixel_buffer := memWrite t.pixel_buffer t.pixel_ptr rgb
                                pixel_ptr := t.pixel_ptr + 3 } r1

/-- Function `doSetChannelAPA102`: read pixel data in APA 102 format. -/
def doSetChannelAPA102 (MAX_PIXELS : Nat) (t : pbxTeleporterData) (input : List Byte) :
    pbxTeleporterData × Option (List Byte) :=
  match readBytes 7 input with
  | none => (t, none)
  | some (d, r) =>
    let ch := PBAPA102DataChannel.ofBytes d
    if ch.frequency ≠ 0 ∧ ch.pixels ≤ MAX_PIXELS then
      match apa102Pixels ch.pixels t r with
      | (t1, none) => (t1, none)
      | (t1, some r1) => crcCheck t1 r1
    else crcCheck t r

/-- Function `doDrawAll`: flag the frame as available and rewind the cursor. -/
def doDrawAll (t : pbxTeleporterData) : pbxTeleporterData :=
  resetPixelBuffer (calcDataSize t)

/-- Function `doSetChannelAPA102Clock`: read and ignore APA 102 clock data. -/
def doSetChannelAPA102Clock (t : pbxTeleporterData) (input : List Byte) :
    pbxTeleporterData × Option (List Byte) :=
  match readBytes 4 input with
  | none => (t, none)
  | some (_, r) => crcCheck t r

/-- One pass through the body of the `while` loop of `serialReadThread`. -/
def serialReadStep (MAX_PIXELS : Nat) (t : pbxTeleporterData) (input : List Byte) :
    pbxTeleporterData × Option (List Byte) :=
  match readMagicWord input with
  | none => (t, none)
  | some (false, r) => (t, some r)
  | some (true, r) =>
    match readBytes 2 r with
    | none => (t, none)
    | some (h, r1) =>
      let hdr := PBFrameHeader.ofBytes h
      if hdr.command = SET_CHANNEL_WS2812 then doSetChannelWS2812 MAX_PIXELS t r1
      else if hdr.command = DRAW_ALL then (doDrawAll t, some r1)
      else if hdr.command = SET_CHANNEL_APA102_DATA then doSetChannelAPA102 MAX_PIXELS t r1
      else if hdr.command = SET_CHANNEL_APA102_CLOCK then doSetChannelAPA102Clock t r1
      else (t, some r1)

/-- The `while` loop of `serialReadThread`, run for at most `fuel` passes; it
ends when a read blocks. -/
def serialReadLoop (MAX_PIXELS : Nat) : Nat → pbxTeleporterData → List Byte →
    pbxTeleporterData
  | 0, t, _ => t
  | fuel + 1, t, input =>
    match serialReadStep MAX_PIXELS t input with
    | (t1, none) => t1
    | (t1, some r) => serialReadLoop MAX_PIXELS fuel t1 r

/-- Function `serialReadThread` over a finite serial input: the frame store when
the reader has used up the input and waits in a read.  Every pass reads at least
one byte, so `input.length + 1` passes always suffice. -/
def serialReadThread (MAX_PIXELS : Nat) (t : pbxTeleporterData) (input : List Byte) :
    pbxTeleporterData :=
  serialReadLoop MAX_PIXELS (input.length + 1) t input

/-! ## The UDP responder (`udpServer.cpp`) -/

/-- The fields of `struct sockaddr_in` the responder touches. -/
structure sockaddr_in where
  /-- port, in network byte order -/
  sin_port : Nat
  /-- IPv4 address -/
  sin_addr : Nat
deriving DecidableEq

/-- Winsock `htons` applied to an `int`: conversion to `u_short`, then the two
bytes swapped (the host is little-endian). -/
def htons (x : Int) : Nat :=
  ((x % 65536).toNat % 256) * 256 + (x % 65536).toNat / 256

/-- Winsock `ntohs`: the port number a `sin_port` value stands for. -/
def ntohs (x : Nat) : Nat :=
  (x % 256) * 256 + x / 256 % 256

/-- The fields of `struct _udpServer` the responder loop uses. -/
structure udpServer where
  listen_port : Int
  send_port : Int
  client : sockaddr_in
  clientlen : Int

/-- What one call of Winsock `recvfrom` hands back: its return value, and the
source address and address length it stored through its last two arguments. -/
structure RecvFrom where
  res : Int
  src : sockaddr_in
  fromlen : Int

/-- The arguments of one call of Winsock `sendto`: the bytes at the buffer
pointer (as many as the length argument says), the length, the destination. -/
structure SendTo where
  buf : List Byte
  len : Int
  dest : sockaddr_in
  tolen : Int

/-- The cast `(int) bufsize` of a `size_t` holding a `UINT` value. -/
def toInt32 (n : Nat) : Int :=
  if n % UINT_SIZE < 2147483648 then ((n % UINT_SIZE : Nat) : Int)
  else ((n % UINT_SIZE : Nat) : Int) - 4294967296

/-- Function `udpServerListen`: one `recvfrom` into `udp->client`. -/
def udpServerListen (udp : udpServer) (rcv : RecvFrom) : udpServer × Int :=
  ({ udp with clientlen := rcv.fromlen, client := rcv.src }, rcv.res)

/-- Function `udpServerSend`: set the client port to the send port, then one
`sendto` to `udp->client`. -/
def udpServerSend (udp : udpServer) (sendbuf : Nat → Byte) (bufsize : Nat) :
    udpServer × SendTo :=
  let udp1 : udpServer :=
    { udp with client := { udp.client with sin_port := htons udp.send_port } }
  (udp1, { buf := memRead sendbuf 0 (toInt32 bufsize).toNat
           len := toInt32 bufsize
           dest := udp1.client
           tolen := udp1.clientlen })

/-- One pass through the body of the `while` loop of `udpThread`, given what
`recvfrom` hands back if it is called: the new server record and the `sendto`
call made, if any. -/
def udpThreadStep (t : pbxTeleporterData) (udp : udpServer) (rcv : RecvFrom) :
    udpServer × Option SendTo :=
  if isDataReady t then
    match udpServerListen udp rcv with
    | (udp1, res) =>
      if res > 0 then
        match udpServerSend udp1 t.pixel_buffer (getDataReady t) with
        | (udp2, call) => (udp2, some call)
      else (udp1, none)
  else (udp, none)

/-! ## The wire format, as the structs of `pbxTeleporter.h` lay it out -/

/-- The magic word "UPXL" that starts every frame. -/
def magicWord : List Byte := [85, 80, 88, 76]

/-- The two bytes of a little-endian `uint16_t`. -/
def u16le (n : Nat) : List Byte :=
  [⟨n % 256, Nat.mod_lt _ (by decide)⟩, ⟨n / 256 % 256, Nat.mod_lt _ (by decide)⟩]

/-- The four bytes of a little-endian `uint32_t`. -/
def u32le (n : Nat) : List Byte :=
  [⟨n % 256, Nat.mod_lt _ (by decide)⟩, ⟨n / 256 % 256, Nat.mod_lt _ (by decide)⟩,
   ⟨n / 65536 % 256, Nat.mod_lt _ (by decide)⟩, ⟨n / 16777216 % 256, Nat.mod_lt _ (by decide)⟩]

/-- The 4-byte CRC that trails a command. -/
abbrev Crc := Byte × Byte × Byte × Byte

/-- The bytes of a CRC trailer. -/
def Crc.bytes (c : Crc) : List Byte := [c.1, c.2.1, c.2.2.1, c.2.2.2]

/-- The payload bytes of a list of 3-byte WS2812 pixels. -/
def ws2812Payload (pixels : List (Byte × Byte × Byte)) : List Byte :=
  pixels.flatMap (fun p => [p.1, p.2.1, p.2.2])

/-- The payload bytes of a list of 4-byte APA102 pixels (extra byte first). -/
def apa102Payload (pixels : List (Byte × Byte × Byte × Byte)) : List Byte :=
  pixels.flatMap (fun p => [p.1, p.2.1, p.2.2.1, p.2.2.2])

/-- The last three bytes (RGB) of every 4-byte APA102 pixel. -/
def apa102RGB (pixels : List (Byte × Byte × Byte × Byte)) : List Byte :=
  pixels.flatMap (fun p => [p.2.1, p.2.2.1, p.2.2.2])

/-- A well-formed channel-data command: 3-element WS2812 data or APA102 data,
with the pixel count of its descriptor equal to the number of pixels sent. -/
inductive ChannelData where
  | ws2812 (channel colorOrders : Byte) (pixels : List (Byte × Byte × Byte)) (crc : Crc)
  | apa102 (channel : Byte) (frequency : Nat) (colorOrders : Byte)
      (pixels : List (Byte × Byte × Byte × Byte)) (crc : Crc)

/-- Marker, header, descriptor, payload and trailer of a channel-data command. -/
def ChannelData.wire : ChannelData → List Byte
  | .ws2812 channel colorOrders pixels crc =>
    magicWord ++ [channel, 1] ++ ([3, colorOrders] ++ u16le pixels.length)
      ++ ws2812Payload pixels ++ crc.bytes
  | .apa102 channel frequency colorOrders pixels crc =>
    magicWord ++ [channel, 3] ++ (u32le frequency ++ [colorOrders] ++ u16le pixels.length)
      ++ apa102Payload pixels ++ crc.bytes

/-- The RGB bytes a channel-data command carries, in wire order. -/
def ChannelData.rgb : ChannelData → List Byte
  | .ws2812 _ _ pixels _ => ws2812Payload pixels
  | .apa102 _ _ _ pixels _ => apa102RGB pixels

/-- The guards of the two data handlers hold: pixel count within `MAX_PIXELS`
and, for APA102, a nonzero 32-bit frequency. -/
def ChannelData.accepted (MAX_PIXELS : Nat) : ChannelData → Prop
  | .ws2812 _ _ pixels _ => pixels.length ≤ MAX_PIXELS
  | .apa102 _ frequency _ pixels _ =>
    0 < frequency ∧ frequency < UINT_SIZE ∧ pixels.length ≤ MAX_PIXELS

/-- The wire bytes of a sequence of channel-data commands. -/
def wireOf (cmds : List ChannelData) : List Byte := cmds.flatMap ChannelData.wire

/-- The RGB bytes of a sequence of channel-data commands, in wire order. -/
def rgbOf (cmds : List ChannelData) : List Byte := cmds.flatMap ChannelData.rgb

/-- Marker and header of a draw-all command. -/
def drawAllWire (channel : Byte) : List Byte := magicWord ++ [channel, 2]

/-- What `readBytes(Teleporter.pixel_ptr, n)` followed by `Teleporter.pixel_ptr += n`
does to the frame store when the `n` bytes read are `data`. -/
def storeAtCursor (t : pbxTeleporterData) (data : List Byte) : pbxTeleporterData :=
  { t with pixel_buffer := memWrite t.pixel_buffer t.pixel_ptr data
           pixel_ptr := t.pixel_ptr + data.length }

/-- Modelled from the spec: `createFrameBuffer`, declared in `pbxTeleporter.h`
with no body in the sources, followed by the initialisation of `start()`: a
buffer of `nPixels * 3` bytes, cursor at its start, nothing ready. -/
def createFrameBuffer (nPixels : Nat) : pbxTeleporterData :=
  { dataReady := 0, buffer_size := nPixels * 3, pixel_buffer := fun _ => 0, pixel_ptr := 0 }

/-! ## Datagrams -/

/-- The constant `UDP_INBUFSIZE` of `udpServer.cpp`: size of the buffer for
incoming UDP data. -/
def UDP_INBUFSIZE : Nat := 256

/-- Winsock `SOCKET_ERROR`. -/
def SOCKET_ERROR : Int := -1

/-- An inbound UDP datagram: its payload and where it came from. -/
structure Datagram where
  payload : List Byte
  src : sockaddr_in

/-- Winsock `recvfrom` on a datagram socket when datagram `d` arrives: the
number of bytes received (0 for an empty datagram), the source address stored
through `from`; a datagram larger than the buffer is an error (`WSAEMSGSIZE`). -/
def recvfrom (bufsize : Nat) (d : Datagram) : RecvFrom :=
  if d.payload.length ≤ bufsize then
    { res := (d.payload.length : Int), src := d.src, fromlen := 16 }
  else
    { res := SOCKET_ERROR, src := d.src, fromlen := 16 }

/-! ## Commands of every kind on the wire -/

/-- A well-formed command whose handler reads its own trailer: channel data, or
an APA102 clock command. -/
inductive Command where
  | data (c : ChannelData)
  | clock (channel : Byte) (frequency : Nat) (crc : Crc)

/-- A channel-data command with its trailer replaced. -/
def ChannelData.withCrc (k : Crc) : ChannelData → ChannelData
  | .ws2812 channel colorOrders pixels _ => .ws2812 channel colorOrders pixels k
  | .apa102 channel frequency colorOrders pixels _ =>
    .apa102 channel frequency colorOrders pixels k

/-- A command with its trailer replaced. -/
def Command.withCrc (k : Crc) : Command → Command
  | .data c => .data (c.withCrc k)
  | .clock channel frequency _ => .clock channel frequency k

/-- Marker, header, descriptor, payload and trailer of a command. -/
def Command.wire : Command → List Byte
  | .data c => c.wire
  | .clock channel frequency crc => magicWord ++ [channel, 4] ++ u32le frequency ++ crc.bytes

/-- The RGB bytes a command carries. -/
def Command.rgb : Command → List Byte
  | .data c => c.rgb
  | .clock _ _ _ => []

/-- The guard of the handler of the command holds (a clock command has none). -/
def Command.accepted (MAX_PIXELS : Nat) : Command → Prop
  | .data c => c.accepted MAX_PIXELS
  | .clock _ _ _ => True

/-- The same commands with trailers taken from `crcs`, one after the other;
commands beyond the end of `crcs` keep theirs. -/
def retrailer : List Command → List Crc → List Command
  | [], _ => []
  | c :: cs, [] => c :: cs
  | c :: cs, k :: ks => c.withCrc k :: retrailer cs ks

/-- The wire bytes of a sequence of commands. -/
def commandsWire (cmds : List Command) : List Byte := cmds.flatMap Command.wire

/-- The RGB bytes of a sequence of commands, in wire order. -/
def commandsRGB (cmds : List Command) : List Byte := cmds.flatMap Command.rgb

/-! ## Start-up (`pbxTeleporter.cpp`, `serialOpen`, `createUdpServer`) -/

/-- A Win32 `HANDLE`, by the integer value of the pointer. -/
abbrev HANDLE := Int

/-- The null pointer. -/
def NULL : HANDLE := 0

/-- Win32 `INVALID_HANDLE_VALUE`, the pointer `(HANDLE)-1`. -/
def INVALID_HANDLE_VALUE : HANDLE := -1

/-- The constant `DEFAULT_LISTEN_PORT` of `pbxTeleporter.h`. -/
def DEFAULT_LISTEN_PORT : Int := 8081

/-- The constant `DEFAULT_SEND_PORT` of `pbxTeleporter.h`. -/
def DEFAULT_SEND_PORT : Int := 8082

/-- The numeric fields of `class pbxSettings`. -/
structure pbxSettings where
  listenPort : Int
  sendPort : Int
  maxPixels : Int
deriving DecidableEq

/-- A call into Win32, Winsock or the C runtime that acquires, uses or releases
a resource; the functions below list the calls they make, in order. -/
inductive Call where
  | settingsLoad
  | CreateFile
  | GetCommState (h : HANDLE)
  | SetCommState (h : HANDLE)
  | SetCommTimeouts (h : HANDLE)
  | PurgeComm (h : HANDLE)
  | CloseHandle (h : HANDLE)
  | WaitForSingleObject (h : HANDLE)
  | beginthreadex_serialReadThread
  | beginthreadex_udpThread
  | WSAStartup
  | socket
  | setsockopt (fd : Nat)
  | bind (fd : Nat)
  | closesocket (fd : Nat)
  | WSACleanup
deriving DecidableEq

/-- What the operating system answers to the calls made during start-up. -/
structure Win32 where
  /-- result of `CreateFile` on the serial device -/
  CreateFile : HANDLE
  /-- result of `GetCommState` -/
  GetCommState : Bool
  /-- result of `SetCommState` -/
  SetCommState : Bool
  /-- result of `SetCommTimeouts` -/
  SetCommTimeouts : Bool
  /-- result of `_beginthreadex` for `serialReadThread`, 0 on failure -/
  serialThread : HANDLE
  /-- result of `WSAStartup`, 0 on success -/
  WSAStartup : Int
  /-- result of `socket`; `SOCKET` is an unsigned type -/
  socket : Nat
  /-- result of `bind` -/
  bind : Int
  /-- result of `_beginthreadex` for `udpThread`, 0 on failure -/
  udpThread : HANDLE

/-- Function `serialOpen`: the handle returned and the calls made. -/
def serialOpen (w : Win32) : HANDLE × List Call :=
  if w.CreateFile = INVALID_HANDLE_VALUE then (w.CreateFile, [Call.CreateFile])
  else if w.GetCommState = false then
    (INVALID_HANDLE_VALUE,
      [Call.CreateFile, Call.GetCommState w.CreateFile, Call.CloseHandle w.CreateFile])
  else if w.SetCommState = false then
    (INVALID_HANDLE_VALUE,
      [Call.CreateFile, Call.GetCommState w.CreateFile, Call.SetCommState w.CreateFile,
       Call.CloseHandle w.CreateFile])
  else if w.SetCommTimeouts = false then
    (INVALID_HANDLE_VALUE,
      [Call.CreateFile, Call.GetCommState w.CreateFile, Call.SetCommState w.CreateFile,
       Call.SetCommTimeouts w.CreateFile, Call.CloseHandle w.CreateFile])
  else
    (w.CreateFile,
      [Call.CreateFile, Call.GetCommState w.CreateFile, Call.SetCommState w.CreateFile,
       Call.SetCommTimeouts w.CreateFile])

/-- The socket and thread fields of `struct _udpServer`. -/
structure udpServerHandles where
  fd : Nat
  pt : HANDLE
deriving DecidableEq

/-- Function `destroyUdpServer`: the calls made (`none` is the null pointer). -/
def destroyUdpServer (udp : Option udpServerHandles) : List Call :=
  match udp with
  | none => []
  | some u =>
    (if (u.fd : Int) ≥ 0 then [Call.closesocket u.fd] else [])
      ++ (if u.pt ≠ 0 then [Call.WaitForSingleObject u.pt, Call.CloseHandle u.pt] else [])
      ++ [Call.WSACleanup]

/-- Function `createUdpServer`: the pointer returned (`none` is `NULL`) with the
ports stored in the object, and the calls made. -/
def createUdpServer (w : Win32) (listen_port send_port : Int) :
    Option (udpServer × udpServerHandles) × List Call :=
  if w.WSAStartup ≠ 0 then (none, [Call.WSAStartup])
  else if (w.socket : Int) < 0 then
    (none, [Call.WSAStartup, Call.socket]
      ++ destroyUdpServer (some { fd := w.socket, pt := INVALID_HANDLE_VALUE }))
  else if w.bind < 0 then
    (none, [Call.WSAStartup, Call.socket, Call.setsockopt w.socket, Call.bind w.socket]
      ++ destroyUdpServer (some { fd := w.socket, pt := INVALID_HANDLE_VALUE }))
  else if w.udpThread = 0 then
    (some ({ listen_port := listen_port, send_port := send_port,
             client := { sin_port := 0, sin_addr := 0 }, clientlen := 16 },
           { fd := w.socket, pt := w.udpThread }),
      [Call.WSAStartup, Call.socket, Call.setsockopt w.socket, Call.bind w.socket,
       Call.beginthreadex_udpThread]
      ++ destroyUdpServer (some { fd := w.socket, pt := w.udpThread }))
  else
    (some ({ listen_port := listen_port, send_port := send_port,
             client := { sin_port := 0, sin_addr := 0 }, clientlen := 16 },
           { fd := w.socket, pt := w.udpThread }),
      [Call.WSAStartup, Call.socket, Call.setsockopt w.socket, Call.bind w.socket,
       Call.beginthreadex_udpThread])

/-- The whole of `class pbxTeleporterData`: the frame store, the run flag, the
handles and the settings. -/
structure Teleporter where
  runFlag : Bool
  frame : pbxTeleporterData
  serialHandle : HANDLE
  serialThread : HANDLE
  udp : Option (udpServer × udpServerHandles)
  settings : pbxSettings

/-- Method `pbxTeleporterData::start`, with `loaded` the settings that
`settings.Load()` reads: the value returned, the object afterwards and the calls
made, in order. -/
def start (w : Win32) (loaded : pbxSettings) (a : Teleporter) :
    Bool × Teleporter × List Call :=
  let a1 : Teleporter :=
    { a with settings := loaded, runFlag := true,
             frame := resetPixelBuffer { a.frame with dataReady := 0 } }
  let a2 : Teleporter := { a1 with serialHandle := (serialOpen w).1 }
  if a2.serialHandle = NULL then
    (false, a2, [Call.settingsLoad] ++ (serialOpen w).2)
  else
    let a3 : Teleporter := { a2 with serialThread := w.serialThread }
    if a3.serialThread = 0 then
      (false, a3, [Call.settingsLoad] ++ (serialOpen w).2 ++ [Call.beginthreadex_serialReadThread])
    else
      let a4 : Teleporter :=
        { a3 with udp := (createUdpServer w a3.settings.listenPort a3.settings.sendPort).1 }
      if a4.udp.isNone then
        (false, a4, [Call.settingsLoad] ++ (serialOpen w).2
          ++ [Call.beginthreadex_serialReadThread]
          ++ (createUdpServer w a3.settings.listenPort a3.settings.sendPort).2)
      else
        (true, a4, [Call.settingsLoad] ++ (serialOpen w).2
          ++ [Call.beginthreadex_serialReadThread]
          ++ (createUdpServer w a3.settings.listenPort a3.settings.sendPort).2
          ++ [Call.PurgeComm a4.serialHandle])

/-- What `pbxTeleporterData::shutdown` does beyond clearing the run flag: the
calls of `destroyUdpServer(udp)` and `destroySerialListener()`. -/
def shutdown (a : Teleporter) : List Call :=
  destroyUdpServer (a.udp.map Prod.snd)
    ++ (if a.serialHandle ≠ INVALID_HANDLE_VALUE then [Call.CloseHandle a.serialHandle] else [])
    ++ (if a.serialThread ≠ 0 then
          [Call.WaitForSingleObject a.serialThread, Call.CloseHandle a.serialThread]
        else [])

/-! ## The ports dialog (`dialogHandlers.cpp`) -/

/-- C runtime `_wtoi`, digits part: the decimal number at the head of a string of
`WCHAR` code units, added to `acc`. -/
def wtoiDigits : List Nat → Int → Int
  | [], acc => acc
  | c :: cs, acc =>
    if 48 ≤ c ∧ c ≤ 57 then wtoiDigits cs (acc * 10 + ((c - 48 : Nat) : Int)) else acc

/-- C runtime `_wtoi`, leading white space skipped. -/
def wtoiSkip : List Nat → List Nat
  | [] => []
  | c :: cs => if c = 32 ∨ (9 ≤ c ∧ c ≤ 13) then wtoiSkip cs else c :: cs

/-- C runtime `_wtoi` on a string short enough not to overflow an `int` (the
dialog passes at most 9 characters): white space, an optional sign, decimal
digits up to the first other character; 0 when there is no digit. -/
def _wtoi (str : List Nat) : Int :=
  match wtoiSkip str with
  | 45 :: cs => - wtoiDigits cs 0
  | 43 :: cs => wtoiDigits cs 0
  | cs => wtoiDigits cs 0

/-- Message `WM_GETTEXT` with a buffer of `cch` characters: the text of the
control, cut to `cch - 1` characters. -/
def WM_GETTEXT (cch : Nat) (text : List Nat) : List Nat := text.take (cch - 1)

/-- Function `readPortsDialog`, with the texts of the send-port and listen-port
controls: the value returned and the settings afterwards. -/
def readPortsDialog (s : pbxSettings) (sendText listenText : List Nat) :
    Bool × pbxSettings :=
  let str1 := WM_GETTEXT 10 sendText
  let portNo1 : Int := if str1.length = 0 then DEFAULT_SEND_PORT else _wtoi str1
  let bChanged1 : Bool := false || decide (portNo1 = s.sendPort)
  let s1 : pbxSettings := { s with sendPort := portNo1 }
  let str2 := WM_GETTEXT 10 listenText
  let portNo2 : Int := if str2.length = 0 then DEFAULT_LISTEN_PORT else _wtoi str2
  let bChanged2 : Bool := bChanged1 || decide (portNo2 = s1.listenPort)
  let s2 : pbxSettings := { s1 with listenPort := portNo2 }
  (bChanged2, s2)

/-! ## Noise in front of a frame -/

/-- The reader loop run over `noise` alone, for at most `fuel` passes: the frame
store after the last pass when the passes use up the noise exactly, `none` when a
pass is left waiting in a read at the end of the noise (inside a marker match or
inside a command).  Every pass reads at least one byte, so `noise.length` passes
always suffice. -/
def noisePasses (MAX_PIXELS : Nat) : Nat → pbxTeleporterData → List Byte →
    Option pbxTeleporterData
  | _, t, [] => some t
  | 0, _, _ :: _ => none
  | fuel + 1, t, b :: bs =>
    match serialReadStep MAX_PIXELS t (b :: bs) with
    | (t1, some r) => noisePasses MAX_PIXELS fuel t1 r
    | (_, none) => none

/-! # Theorems -/

/-! ## Memory -/

theorem memRead_length (mem : Nat → Byte) (off n : Nat) : (memRead mem off n).length = n := by
  simp [memRead]

theorem memWrite_nil (mem : Nat → Byte) (off : Nat) : memWrite mem off [] = mem := by
  funext i
  simp [memWrite]

theorem memWrite_outside (mem : Nat → Byte) (off : Nat) (data : List Byte) (i : Nat)
    (h : i < off ∨ off + data.length ≤ i) : memWrite mem off data i = mem i := by
  unfold memWrite
  rw [if_neg]
  omega

theorem memWrite_inside (mem : Nat → Byte) (off : Nat) (data : List Byte) (i : Nat)
    (h : i < data.length) : memWrite mem off data (off + i) = data.getD i 0 := by
  unfold memWrite
  rw [if_pos (by omega)]
  congr 1
  omega

theorem memRead_memWrite_same (mem : Nat → Byte) (off : Nat) (data : List Byte) :
    memRead (memWrite mem off data) off data.length = data := by
  apply List.ext_getElem
  · simp [memRead]
  · intro i h1 h2
    simp only [memRead, List.getElem_map, List.getElem_range]
    rw [memWrite_inside mem off data i h2, List.getD_eq_getElem _ _ h2]

theorem memRead_memWrite_before (mem : Nat → Byte) (off : Nat) (data : List Byte)
    (off0 n : Nat) (h : off0 + n ≤ off) :
    memRead (memWrite mem off data) off0 n = memRead mem off0 n := by
  unfold memRead
  apply List.map_congr_left
  intro i hi
  rw [List.mem_range] at hi
  exact memWrite_outside mem off data (off0 + i) (Or.inl (by omega))

theorem memRead_add (mem : Nat → Byte) (off a b : Nat) :
    memRead mem off (a + b) = memRead mem off a ++ memRead mem (off + a) b := by
  unfold memRead
  rw [List.range_add, List.map_append, List.map_map]
  congr 1
  apply List.map_congr_left
  intro i _
  simp [Nat.add_assoc]

theorem memWrite_append (mem : Nat → Byte) (off : Nat) (a b : List Byte) :
    memWrite (memWrite mem off a) (off + a.length) b = memWrite mem off (a ++ b) := by
  funext i
  by_cases h1 : off + a.length ≤ i ∧ i < off + a.length + b.length
  · have e : i = off + a.length + (i - (off + a.length)) := by omega
    rw [e, memWrite_inside _ _ _ _ (by omega)]
    have e2 : off + a.length + (i - (off + a.length)) = off + (a.length + (i - (off + a.length))) := by
      omega
    rw [e2, memWrite_inside _ _ _ _ (by simp; omega)]
    rw [List.getD_eq_getElem _ _ (by omega), List.getD_eq_getElem _ _ (by simp; omega)]
    rw [List.getElem_append_right (by omega)]
    simp
  · rw [memWrite_outside _ _ _ _ (by omega)]
    by_cases h2 : off ≤ i ∧ i < off + a.length
    · have e : i = off + (i - off) := by omega
      rw [e, memWrite_inside _ _ _ _ (by omega), memWrite_inside _ _ _ _ (by simp; omega)]
      rw [List.getD_eq_getElem _ _ (by omega), List.getD_eq_getElem _ _ (by simp; omega)]
      rw [List.getElem_append_left]
    · rw [memWrite_outside _ _ _ _ (by omega), memWrite_outside _ _ _ _ (by simp; omega)]

/-! ## Reads -/

theorem readBytes_append (n : Nat) (a rest : List Byte) (h : a.length = n)
    (hn : n < UINT16_SIZE) : readBytes n (a ++ rest) = some (a, rest) := by
  unfold readBytes
  rw [Nat.mod_eq_of_lt hn, if_pos (by simp [h])]
  subst h
  simp

theorem readBytes_rest_length (n : Nat) (input d r : List Byte)
    (h : readBytes n input = some (d, r)) : r.length ≤ input.length := by
  unfold readBytes at h
  split at h
  · simp only [Option.some.injEq, Prod.mk.injEq] at h
    rw [← h.2]
    simp
  · simp at h

theorem crcCheck_fst (t : pbxTeleporterData) (input : List Byte) :
    (crcCheck t input).1 = t := by
  unfold crcCheck
  split <;> rfl

theorem crcCheck_rest_length (t : pbxTeleporterData) (input r : List Byte)
    (h : (crcCheck t input).2 = some r) : r.length ≤ input.length := by
  unfold crcCheck at h
  split at h
  · simp at h
  · next d rest hr =>
    simp only [Option.some.injEq] at h
    subst h
    exact readBytes_rest_length 4 input d rest hr

theorem crcCheck_append (t : pbxTeleporterData) (c : Crc) (rest : List Byte) :
    crcCheck t (c.bytes ++ rest) = (t, some rest) := by
  unfold crcCheck
  rw [readBytes_append 4 c.bytes rest rfl (by decide)]

/-! ## Every pass of the reader loop uses up input -/

theorem readMagicWord_rest_length (input r : List Byte) (b : Bool)
    (h : readMagicWord input = some (b, r)) : r.length < input.length := by
  unfold readMagicWord readOneByte at h
  rcases input with _ | ⟨b0, _ | ⟨b1, _ | ⟨b2, _ | ⟨b3, tl⟩⟩⟩⟩ <;>
    simp only [] at h <;> repeat' split at h
  all_goals simp only [Option.some.injEq, Prod.mk.injEq, reduceCtorEq] at h
  all_goals (try (obtain ⟨_, rfl⟩ := h))
  all_goals simp
  all_goals omega

theorem doSetChannelWS2812_rest_length (M : Nat) (t : pbxTeleporterData)
    (input r : List Byte) (h : (doSetChannelWS2812 M t input).2 = some r) :
    r.length ≤ input.length := by
  unfold doSetChannelWS2812 at h
  split at h
  · simp at h
  · next d r0 h0 =>
    have l0 := readBytes_rest_length 4 input d r0 h0
    simp only [] at h
    split at h
    · split at h
      · simp at h
      · next data r1 h1 =>
        have l1 := readBytes_rest_length _ r0 data r1 h1
        have l2 := crcCheck_rest_length _ r1 r h
        omega
    · have l2 := crcCheck_rest_length _ r0 r h
      omega

theorem apa102Pixels_rest_length (n : Nat) (t : pbxTeleporterData)
    (input r : List Byte) (h : (apa102Pixels n t input).2 = some r) :
    r.length ≤ input.length := by
  induction n generalizing t input with
  | zero =>
    simp only [apa102Pixels, Option.some.injEq] at h
    subst h
    exact Nat.le_refl _
  | succ n ih =>
    unfold apa102Pixels readOneByte at h
    rcases input with _ | ⟨b, tl⟩
    · simp at h
    · simp only [] at h
      split at h
      · simp at h
      · next rgb r1 h1 =>
        have l1 := readBytes_rest_length 3 tl rgb r1 h1
        have l2 := ih _ _ h
        simp only [List.length_cons]
        omega

theorem doSetChannelAPA102_rest_length (M : Nat) (t : pbxTeleporterData)
    (input r : List Byte) (h : (doSetChannelAPA102 M t input).2 = some r) :
    r.length ≤ input.length := by
  unfold doSetChannelAPA102 at h
  split at h
  · simp at h
  · next d r0 h0 =>
    have l0 := readBytes_rest_length 7 input d r0 h0
    simp only [] at h
    split at h
    · split at h
      · simp at h
      · next t1 r1 h1 =>
        have l1 := apa102Pixels_rest_length _ t r0 r1 (by rw [h1])
        have l2 := crcCheck_rest_length _ r1 r h
        omega
    · have l2 := crcCheck_rest_length _ r0 r h
      omega

theorem doSetChannelAPA102Clock_rest_length (t : pbxTeleporterData)
    (input r : List Byte) (h : (doSetChannelAPA102Clock t input).2 = some r) :
    r.length ≤ input.length := by
  unfold doSetChannelAPA102Clock at h
  split at h
  · simp at h
  · next d r0 h0 =>
    have l0 := readBytes_rest_length 4 input d r0 h0
    have l2 := crcCheck_rest_length _ r0 r h
    omega

theorem serialReadStep_rest_length (M : Nat) (t : pbxTeleporterData)
    (input r : List Byte) (h : (serialReadStep M t input).2 = some r) :
    r.length < input.length := by
  unfold serialReadStep at h
  split at h
  · simp at h
  · next r0 h0 =>
    have l0 := readMagicWord_rest_length input r0 false h0
    simp only [Option.some.injEq] at h
    subst h
    exact l0
  · next r0 h0 =>
    have l0 := readMagicWord_rest_length input r0 true h0
    split at h
    · simp at h
    · next hd r1 h1 =>
      have l1 := readBytes_rest_length 2 r0 hd r1 h1
      simp only [] at h
      split at h
      · have := doSetChannelWS2812_rest_length M t r1 r h
        omega
      · split at h
        · simp only [Option.some.injEq] at h
          subst h
          omega
        · split at h
          · have := doSetChannelAPA102_rest_length M t r1 r h
            omega
          · split at h
            · have := doSetChannelAPA102Clock_rest_length t r1 r h
              omega
            · simp only [Option.some.injEq] at h
              subst h
              omega

theorem serialReadLoop_fuel (M : Nat) (fuel1 fuel2 : Nat) (t : pbxTeleporterData)
    (input : List Byte) (h1 : input.length < fuel1) (h2 : input.length < fuel2) :
    serialReadLoop M fuel1 t input = serialReadLoop M fuel2 t input := by
  induction fuel1 generalizing fuel2 t input with
  | zero => omega
  | succ f1 ih =>
    cases fuel2 with
    | zero => omega
    | succ f2 =>
      simp only [serialReadLoop]
      rcases hs : serialReadStep M t input with ⟨t1, _ | r⟩
      · rfl
      · have l := serialReadStep_rest_length M t input r (by rw [hs])
        exact ih f2 t1 r (by omega) (by omega)

theorem serialReadThread_step (M : Nat) (t t1 : pbxTeleporterData) (input r : List Byte)
    (h : serialReadStep M t input = (t1, some r)) :
    serialReadThread M t input = serialReadThread M t1 r := by
  have l := serialReadStep_rest_length M t input r (by rw [h])
  unfold serialReadThread
  rw [serialReadLoop, h]
  exact serialReadLoop_fuel M _ _ t1 r (by omega) (by omega)

theorem serialReadThread_blocked (M : Nat) (t t1 : pbxTeleporterData) (input : List Byte)
    (h : serialReadStep M t input = (t1, none)) :
    serialReadThread M t input = t1 := by
  unfold serialReadThread
  rw [serialReadLoop, h]

/-! ## The handlers on well-formed commands -/

theorem storeAtCursor_nil (t : pbxTeleporterData) : storeAtCursor t [] = t := by
  simp [storeAtCursor, memWrite_nil]

theorem storeAtCursor_append (t : pbxTeleporterData) (a b : List Byte) :
    storeAtCursor (storeAtCursor t a) b = storeAtCursor t (a ++ b) := by
  simp [storeAtCursor, memWrite_append, Nat.add_assoc]

theorem doSetChannelWS2812_accept (M : Nat) (t : pbxTeleporterData) (co lo hi : Byte)
    (payload rest : List Byte) (hlen : payload.length = (lo.val + 256 * hi.val) * 3)
    (hfit : payload.length < UINT16_SIZE) (hpix : lo.val + 256 * hi.val ≤ M) :
    doSetChannelWS2812 M t ([3, co, lo, hi] ++ payload ++ rest)
      = crcCheck (storeAtCursor t payload) rest := by
  unfold doSetChannelWS2812
  rw [List.append_assoc, readBytes_append 4 [3, co, lo, hi] (payload ++ rest) rfl (by decide)]
  have e3 : (PBWS2812Channel.ofBytes [3, co, lo, hi]).numElements = 3 := rfl
  have ep : (PBWS2812Channel.ofBytes [3, co, lo, hi]).pixels = lo.val + 256 * hi.val := rfl
  simp only [e3, ep]
  by_cases h0 : lo.val + 256 * hi.val = 0
  · have hnil : payload = [] := by
      apply List.eq_nil_of_length_eq_zero
      rw [hlen, h0]
    rw [if_neg (by simp [h0]), hnil, storeAtCursor_nil, List.nil_append]
  · rw [if_pos ⟨h0, trivial, hpix⟩]
    have hm : (lo.val + 256 * hi.val) * 3 % UINT16_SIZE = payload.length := by
      rw [← hlen]
      exact Nat.mod_eq_of_lt hfit
    simp only [hm]
    rw [readBytes_append payload.length payload rest rfl hfit]
    rfl

theorem apa102Pixels_wire (pixels : List (Byte × Byte × Byte × Byte))
    (t : pbxTeleporterData) (rest : List Byte) :
    apa102Pixels pixels.length t (apa102Payload pixels ++ rest)
      = (storeAtCursor t (apa102RGB pixels), some rest) := by
  induction pixels generalizing t with
  | nil => simp [apa102Pixels, apa102Payload, apa102RGB, storeAtCursor_nil]
  | cons p ps ih =>
    have e1 : apa102Payload (p :: ps) ++ rest
        = p.1 :: ([p.2.1, p.2.2.1, p.2.2.2] ++ (apa102Payload ps ++ rest)) := by
      simp [apa102Payload]
    have e2 : apa102RGB (p :: ps) = [p.2.1, p.2.2.1, p.2.2.2] ++ apa102RGB ps := by
      simp [apa102RGB]
    rw [e1, e2, List.length_cons, apa102Pixels]
    simp only [readOneByte]
    rw [readBytes_append 3 [p.2.1, p.2.2.1, p.2.2.2] _ rfl (by decide)]
    simp only []
    rw [← storeAtCursor_append, ← ih]
    rfl

theorem apa102Payload_length (pixels : List (Byte × Byte × Byte × Byte)) :
    (apa102Payload pixels).length = pixels.length * 4 := by
  induction pixels with
  | nil => rfl
  | cons p ps ih =>
    have e : apa102Payload (p :: ps) = [p.1, p.2.1, p.2.2.1, p.2.2.2] ++ apa102Payload ps := by
      simp [apa102Payload]
    rw [e, List.length_append, ih, List.length_cons]
    simp only [List.length_cons, List.length_nil]
    omega

theorem apa102RGB_length (pixels : List (Byte × Byte × Byte × Byte)) :
    (apa102RGB pixels).length = pixels.length * 3 := by
  induction pixels with
  | nil => rfl
  | cons p ps ih =>
    have e : apa102RGB (p :: ps) = [p.2.1, p.2.2.1, p.2.2.2] ++ apa102RGB ps := by
      simp [apa102RGB]
    rw [e, List.length_append, ih, List.length_cons]
    simp only [List.length_cons, List.length_nil]
    omega

theorem ws2812Payload_length (pixels : List (Byte × Byte × Byte)) :
    (ws2812Payload pixels).length = pixels.length * 3 := by
  induction pixels with
  | nil => rfl
  | cons p ps ih =>
    have e : ws2812Payload (p :: ps) = [p.1, p.2.1, p.2.2] ++ ws2812Payload ps := by
      simp [ws2812Payload]
    rw [e, List.length_append, ih, List.length_cons]
    simp only [List.length_cons, List.length_nil]
    omega

theorem doSetChannelAPA102_accept (M : Nat) (t : pbxTeleporterData)
    (f0 f1 f2 f3 co lo hi : Byte) (pixels : List (Byte × Byte × Byte × Byte))
    (rest : List Byte)
    (hfreq : f0.val + 256 * f1.val + 65536 * f2.val + 16777216 * f3.val ≠ 0)
    (hcount : pixels.length = lo.val + 256 * hi.val) (hpix : lo.val + 256 * hi.val ≤ M) :
    doSetChannelAPA102 M t ([f0, f1, f2, f3, co, lo, hi] ++ apa102Payload pixels ++ rest)
      = crcCheck (storeAtCursor t (apa102RGB pixels)) rest := by
  unfold doSetChannelAPA102
  rw [List.append_assoc,
    readBytes_append 7 [f0, f1, f2, f3, co, lo, hi] _ rfl (by decide)]
  have ef : (PBAPA102DataChannel.ofBytes [f0, f1, f2, f3, co, lo, hi]).frequency
      = f0.val + 256 * f1.val + 65536 * f2.val + 16777216 * f3.val := rfl
  have ep : (PBAPA102DataChannel.ofBytes [f0, f1, f2, f3, co, lo, hi]).pixels
      = pixels.length := by rw [hcount]; rfl
  simp only [ef, ep]
  rw [if_pos ⟨hfreq, by omega⟩, apa102Pixels_wire]

/-! ## Claims about the handlers -/

/-- C1: for a WS2812 command with `numElements == 3` and a pixel count within
`MAX_PIXELS` (where `MAX_PIXELS * 3` fits the `uint16_t data_length`), and for
every starting cursor, `doSetChannelWS2812` stores the `pixels * 3` payload
bytes unchanged and in order from the old cursor on, touches no other byte of
the buffer, and leaves the cursor at the old cursor plus `pixels * 3`. -/
theorem doSetChannelWS2812_copies_payload (MAX_PIXELS : Nat) (t : pbxTeleporterData)
    (colorOrders lo hi : Byte) (payload rest : List Byte)
    (hmax : MAX_PIXELS * 3 < UINT16_SIZE)
    (hpix : lo.val + 256 * hi.val ≤ MAX_PIXELS)
    (hlen : payload.length = (lo.val + 256 * hi.val) * 3) :
    memRead (doSetChannelWS2812 MAX_PIXELS t
        ([3, colorOrders, lo, hi] ++ payload ++ rest)).1.pixel_buffer
        t.pixel_ptr ((lo.val + 256 * hi.val) * 3) = payload
    ∧ (doSetChannelWS2812 MAX_PIXELS t
        ([3, colorOrders, lo, hi] ++ payload ++ rest)).1.pixel_ptr
        = t.pixel_ptr + (lo.val + 256 * hi.val) * 3
    ∧ ∀ i, i < t.pixel_ptr ∨ t.pixel_ptr + (lo.val + 256 * hi.val) * 3 ≤ i →
        (doSetChannelWS2812 MAX_PIXELS t
          ([3, colorOrders, lo, hi] ++ payload ++ rest)).1.pixel_buffer i
          = t.pixel_buffer i := by
  have hfit : payload.length < UINT16_SIZE := by
    rw [hlen]
    exact Nat.lt_of_le_of_lt (Nat.mul_le_mul_right 3 hpix) hmax
  rw [doSetChannelWS2812_accept MAX_PIXELS t colorOrders lo hi payload rest hlen hfit hpix,
    crcCheck_fst, ← hlen]
  refine ⟨memRead_memWrite_same _ _ _, rfl, ?_⟩
  intro i hi
  exact memWrite_outside _ _ _ i hi

/-- C1 at a concrete input: two pixels stored from cursor 3. -/
theorem doSetChannelWS2812_copies_payload_witness :
    (2048 * 3 < UINT16_SIZE ∧ ((2 : Byte)).val + 256 * ((0 : Byte)).val ≤ 2048
      ∧ ([10, 20, 30, 40, 50, 60] : List Byte).length
          = (((2 : Byte)).val + 256 * ((0 : Byte)).val) * 3)
    ∧ memRead (doSetChannelWS2812 2048 (storeAtCursor (createFrameBuffer 2048) [7, 8, 9])
        ([3, 0, 2, 0] ++ [10, 20, 30, 40, 50, 60] ++ [1, 2, 3, 4])).1.pixel_buffer 3 6
        = [10, 20, 30, 40, 50, 60]
    ∧ (doSetChannelWS2812 2048 (storeAtCursor (createFrameBuffer 2048) [7, 8, 9])
        ([3, 0, 2, 0] ++ [10, 20, 30, 40, 50, 60] ++ [1, 2, 3, 4])).1.pixel_ptr = 9 :=
  ⟨⟨by decide, by decide, by decide⟩,
    (doSetChannelWS2812_copies_payload 2048 (storeAtCursor (createFrameBuffer 2048) [7, 8, 9])
      0 2 0 [10, 20, 30, 40, 50, 60] [1, 2, 3, 4] (by decide) (by decide) (by decide)).1,
    (doSetChannelWS2812_copies_payload 2048 (storeAtCursor (createFrameBuffer 2048) [7, 8, 9])
      0 2 0 [10, 20, 30, 40, 50, 60] [1, 2, 3, 4] (by decide) (by decide) (by decide)).2.1⟩

/-- C2: for an APA102-data command with nonzero frequency and a pixel count
within `MAX_PIXELS`, `doSetChannelAPA102` reads `pixels` groups of 4 payload
bytes (the trailer read starts right after them), drops the first byte of every
group and stores the other three in order from the old cursor on, touches no
other byte of the buffer, and leaves the cursor at the old cursor plus
`pixels * 3`. -/
theorem doSetChannelAPA102_drops_first_of_four (MAX_PIXELS : Nat) (t : pbxTeleporterData)
    (f0 f1 f2 f3 colorOrders lo hi : Byte) (pixels : List (Byte × Byte × Byte × Byte))
    (rest : List Byte)
    (hfreq : f0.val + 256 * f1.val + 65536 * f2.val + 16777216 * f3.val ≠ 0)
    (hcount : pixels.length = lo.val + 256 * hi.val)
    (hpix : lo.val + 256 * hi.val ≤ MAX_PIXELS) :
    memRead (doSetChannelAPA102 MAX_PIXELS t
        ([f0, f1, f2, f3, colorOrders, lo, hi] ++ apa102Payload pixels ++ rest)).1.pixel_buffer
        t.pixel_ptr (pixels.length * 3) = pixels.flatMap (fun p => [p.2.1, p.2.2.1, p.2.2.2])
    ∧ (doSetChannelAPA102 MAX_PIXELS t
        ([f0, f1, f2, f3, colorOrders, lo, hi] ++ apa102Payload pixels ++ rest)).1.pixel_ptr
        = t.pixel_ptr + pixels.length * 3
    ∧ (doSetChannelAPA102 MAX_PIXELS t
        ([f0, f1, f2, f3, colorOrders, lo, hi] ++ apa102Payload pixels ++ rest)).2
        = (crcCheck t rest).2
    ∧ ∀ i, i < t.pixel_ptr ∨ t.pixel_ptr + pixels.length * 3 ≤ i →
        (doSetChannelAPA102 MAX_PIXELS t
          ([f0, f1, f2, f3, colorOrders, lo, hi] ++ apa102Payload pixels ++ rest)).1.pixel_buffer i
          = t.pixel_buffer i := by
  rw [doSetChannelAPA102_accept MAX_PIXELS t f0 f1 f2 f3 colorOrders lo hi pixels rest
    hfreq hcount hpix, crcCheck_fst, ← apa102RGB_length]
  refine ⟨memRead_memWrite_same _ _ _, rfl, ?_, ?_⟩
  · unfold crcCheck
    split <;> rfl
  · intro i hi
    exact memWrite_outside _ _ _ i hi

/-- C2 at a concrete input: two APA102 pixels stored from cursor 3. -/
theorem doSetChannelAPA102_drops_first_of_four_witness :
    (((1 : Byte)).val + 256 * ((0 : Byte)).val + 65536 * ((0 : Byte)).val
        + 16777216 * ((0 : Byte)).val ≠ 0
      ∧ ([(255, 10, 20, 30), (254, 40, 50, 60)] : List (Byte × Byte × Byte × Byte)).length
          = ((2 : Byte)).val + 256 * ((0 : Byte)).val
      ∧ ((2 : Byte)).val + 256 * ((0 : Byte)).val ≤ 2048)
    ∧ memRead (doSetChannelAPA102 2048 (storeAtCursor (createFrameBuffer 2048) [7, 8, 9])
        ([1, 0, 0, 0, 0, 2, 0] ++ apa102Payload [(255, 10, 20, 30), (254, 40, 50, 60)]
          ++ [1, 2, 3, 4])).1.pixel_buffer 3 6 = [10, 20, 30, 40, 50, 60]
    ∧ (doSetChannelAPA102 2048 (storeAtCursor (createFrameBuffer 2048) [7, 8, 9])
        ([1, 0, 0, 0, 0, 2, 0] ++ apa102Payload [(255, 10, 20, 30), (254, 40, 50, 60)]
          ++ [1, 2, 3, 4])).1.pixel_ptr = 9 :=
  ⟨⟨by decide, by decide, by decide⟩,
    (doSetChannelAPA102_drops_first_of_four 2048
      (storeAtCursor (createFrameBuffer 2048) [7, 8, 9]) 1 0 0 0 0 2 0
      [(255, 10, 20, 30), (254, 40, 50, 60)] [1, 2, 3, 4]
      (by decide) (by decide) (by decide)).1,
    (doSetChannelAPA102_drops_first_of_four 2048
      (storeAtCursor (createFrameBuffer 2048) [7, 8, 9]) 1 0 0 0 0 2 0
      [(255, 10, 20, 30), (254, 40, 50, 60)] [1, 2, 3, 4]
      (by decide) (by decide) (by decide)).2.1⟩

/-- C3: for every frame store whose cursor offset is a `UINT` value, `doDrawAll`
sets `dataReady` to exactly the cursor offset held at call time and rewinds the
cursor to offset 0; buffer contents and size stay as they were. -/
theorem doDrawAll_publishes_cursor (t : pbxTeleporterData) (h : t.pixel_ptr < UINT_SIZE) :
    (doDrawAll t).dataReady = t.pixel_ptr ∧ (doDrawAll t).pixel_ptr = 0
    ∧ (doDrawAll t).pixel_buffer = t.pixel_buffer
    ∧ (doDrawAll t).buffer_size = t.buffer_size := by
  refine ⟨?_, rfl, rfl, rfl⟩
  show t.pixel_ptr % UINT_SIZE = t.pixel_ptr
  exact Nat.mod_eq_of_lt h

/-- C3 at a concrete input: a store holding six bytes. -/
theorem doDrawAll_publishes_cursor_witness :
    (storeAtCursor (createFrameBuffer 2048) [10, 20, 30, 40, 50, 60]).pixel_ptr < UINT_SIZE
    ∧ (doDrawAll (storeAtCursor (createFrameBuffer 2048) [10, 20, 30, 40, 50, 60])).dataReady = 6
    ∧ (doDrawAll (storeAtCursor (createFrameBuffer 2048) [10, 20, 30, 40, 50, 60])).pixel_ptr = 0 :=
  ⟨by decide,
    (doDrawAll_publishes_cursor (storeAtCursor (createFrameBuffer 2048) [10, 20, 30, 40, 50, 60])
      (by decide)).1,
    (doDrawAll_publishes_cursor (storeAtCursor (createFrameBuffer 2048) [10, 20, 30, 40, 50, 60])
      (by decide)).2.1⟩

/-! ## The reader loop on well-formed commands -/

theorem readMagicWord_magicWord (rest : List Byte) :
    readMagicWord (magicWord ++ rest) = some (true, rest) := by
  simp [readMagicWord, readOneByte, magicWord]

theorem readMagicWord_nil : readMagicWord [] = none := rfl

theorem readMagicWord_noise (b : Byte) (rest : List Byte) (h : b ≠ 85) :
    readMagicWord (b :: rest) = some (false, rest) := by
  simp [readMagicWord, readOneByte, h]

theorem serialReadStep_header (M : Nat) (t : pbxTeleporterData) (channel command : Byte)
    (rest : List Byte) :
    serialReadStep M t (magicWord ++ [channel, command] ++ rest)
      = if command.val = SET_CHANNEL_WS2812 then doSetChannelWS2812 M t rest
        else if command.val = DRAW_ALL then (doDrawAll t, some rest)
        else if command.val = SET_CHANNEL_APA102_DATA then doSetChannelAPA102 M t rest
        else if command.val = SET_CHANNEL_APA102_CLOCK then doSetChannelAPA102Clock t rest
        else (t, some rest) := by
  unfold serialReadStep
  rw [List.append_assoc, readMagicWord_magicWord]
  simp only []
  rw [readBytes_append 2 [channel, command] rest rfl (by decide)]
  rfl

theorem serialReadStep_drawAll (M : Nat) (t : pbxTeleporterData) (channel : Byte)
    (rest : List Byte) :
    serialReadStep M t (drawAllWire channel ++ rest) = (doDrawAll t, some rest) := by
  unfold drawAllWire
  rw [serialReadStep_header]
  rfl

theorem serialReadStep_ws2812 (M : Nat) (t : pbxTeleporterData) (channel : Byte)
    (rest : List Byte) :
    serialReadStep M t (magicWord ++ [channel, 1] ++ rest) = doSetChannelWS2812 M t rest := by
  rw [serialReadStep_header]
  rfl

theorem serialReadStep_apa102 (M : Nat) (t : pbxTeleporterData) (channel : Byte)
    (rest : List Byte) :
    serialReadStep M t (magicWord ++ [channel, 3] ++ rest) = doSetChannelAPA102 M t rest := by
  rw [serialReadStep_header]
  rfl

theorem serialReadStep_apa102Clock (M : Nat) (t : pbxTeleporterData) (channel : Byte)
    (rest : List Byte) :
    serialReadStep M t (magicWord ++ [channel, 4] ++ rest) = doSetChannelAPA102Clock t rest := by
  rw [serialReadStep_header]
  rfl

theorem serialReadStep_channelData (M : Nat) (t : pbxTeleporterData) (c : ChannelData)
    (rest : List Byte) (hmax : M * 3 < UINT16_SIZE) (hacc : c.accepted M) :
    serialReadStep M t (c.wire ++ rest) = (storeAtCursor t c.rgb, some rest) := by
  have h16 : UINT16_SIZE = 65536 := rfl
  cases c with
  | ws2812 channel colorOrders pixels crc =>
    have hpix : pixels.length ≤ M := hacc
    have e : (ChannelData.ws2812 channel colorOrders pixels crc).wire ++ rest
        = magicWord ++ [channel, 1]
          ++ ([3, colorOrders, ⟨pixels.length % 256, Nat.mod_lt _ (by decide)⟩,
                ⟨pixels.length / 256 % 256, Nat.mod_lt _ (by decide)⟩]
              ++ ws2812Payload pixels ++ (crc.bytes ++ rest)) := by
      simp [ChannelData.wire, u16le]
    rw [e, serialReadStep_ws2812,
      doSetChannelWS2812_accept M t _ _ _ _ _
        (by rw [ws2812Payload_length]; simp only []; omega)
        (by rw [ws2812Payload_length]; omega)
        (by simp only []; omega),
      crcCheck_append]
    rfl
  | apa102 channel frequency colorOrders pixels crc =>
    obtain ⟨hf0, hf1, hpix⟩ : 0 < frequency ∧ frequency < UINT_SIZE ∧ pixels.length ≤ M := hacc
    have h32 : UINT_SIZE = 4294967296 := rfl
    have e : (ChannelData.apa102 channel frequency colorOrders pixels crc).wire ++ rest
        = magicWord ++ [channel, 3]
          ++ ([⟨frequency % 256, Nat.mod_lt _ (by decide)⟩,
                ⟨frequency / 256 % 256, Nat.mod_lt _ (by decide)⟩,
                ⟨frequency / 65536 % 256, Nat.mod_lt _ (by decide)⟩,
                ⟨frequency / 16777216 % 256, Nat.mod_lt _ (by decide)⟩,
                colorOrders,
                ⟨pixels.length % 256, Nat.mod_lt _ (by decide)⟩,
                ⟨pixels.length / 256 % 256, Nat.mod_lt _ (by decide)⟩]
              ++ apa102Payload pixels ++ (crc.bytes ++ rest)) := by
      simp [ChannelData.wire, u16le, u32le]
    rw [e, serialReadStep_apa102,
      doSetChannelAPA102_accept M t _ _ _ _ _ _ _ pixels _
        (by simp only []; omega) (by simp only []; omega) (by simp only []; omega),
      crcCheck_append]
    rfl

theorem serialReadThread_channelData (M : Nat) (cmds : List ChannelData)
    (t : pbxTeleporterData) (rest : List Byte) (hmax : M * 3 < UINT16_SIZE)
    (hacc : ∀ c ∈ cmds, c.accepted M) :
    serialReadThread M t (wireOf cmds ++ rest)
      = serialReadThread M (storeAtCursor t (rgbOf cmds)) rest := by
  induction cmds generalizing t with
  | nil => simp [wireOf, rgbOf, storeAtCursor_nil]
  | cons c cs ih =>
    have e1 : wireOf (c :: cs) ++ rest = c.wire ++ (wireOf cs ++ rest) := by
      simp [wireOf]
    have e2 : rgbOf (c :: cs) = c.rgb ++ rgbOf cs := by
      simp [rgbOf]
    rw [e1, e2, serialReadThread_step M t _ _ _
      (serialReadStep_channelData M t c _ hmax (hacc c (List.mem_cons_self c cs))),
      ih _ (fun d hd => hacc d (List.mem_cons_of_mem c hd)), storeAtCursor_append]

theorem serialReadThread_nil (M : Nat) (t : pbxTeleporterData) :
    serialReadThread M t [] = t := rfl

theorem memRead_storeAtCursor (t : pbxTeleporterData) (data : List Byte) :
    memRead (storeAtCursor t data).pixel_buffer t.pixel_ptr data.length = data :=
  memRead_memWrite_same _ _ _

/-- C4: starting from cursor 0 with a buffer of `MAX_PIXELS * 3` bytes (where
`MAX_PIXELS * 3` fits the `uint16_t data_length`), for every stream made of any
number of well-formed accepted channel-data commands whose RGB bytes total at
most the capacity, followed by a marker and a draw-all header, the reader loop
ends with `dataReady` equal to the total number of RGB bytes, the first
`dataReady` bytes of the buffer equal to the RGB bytes of the commands in wire
order, and the cursor back at 0. -/
theorem serialReadThread_publishes_frame (MAX_PIXELS : Nat) (t : pbxTeleporterData)
    (cmds : List ChannelData) (channel : Byte)
    (hmax : MAX_PIXELS * 3 < UINT16_SIZE)
    (hcap : t.buffer_size = MAX_PIXELS * 3)
    (hstart : t.pixel_ptr = 0)
    (hacc : ∀ c ∈ cmds, c.accepted MAX_PIXELS)
    (htotal : (rgbOf cmds).length ≤ t.buffer_size) :
    (serialReadThread MAX_PIXELS t (wireOf cmds ++ drawAllWire channel)).dataReady
      = (rgbOf cmds).length
    ∧ memRead (serialReadThread MAX_PIXELS t (wireOf cmds ++ drawAllWire channel)).pixel_buffer
        0 (serialReadThread MAX_PIXELS t (wireOf cmds ++ drawAllWire channel)).dataReady
      = rgbOf cmds
    ∧ (serialReadThread MAX_PIXELS t (wireOf cmds ++ drawAllWire channel)).pixel_ptr = 0 := by
  have e : serialReadThread MAX_PIXELS t (wireOf cmds ++ drawAllWire channel)
      = doDrawAll (storeAtCursor t (rgbOf cmds)) := by
    rw [serialReadThread_channelData MAX_PIXELS cmds t _ hmax hacc]
    have hs := serialReadStep_drawAll MAX_PIXELS (storeAtCursor t (rgbOf cmds)) channel []
    rw [List.append_nil] at hs
    rw [serialReadThread_step MAX_PIXELS _ _ _ _ hs, serialReadThread_nil]
  have hready : (doDrawAll (storeAtCursor t (rgbOf cmds))).dataReady = (rgbOf cmds).length := by
    show (t.pixel_ptr + (rgbOf cmds).length) % UINT_SIZE = (rgbOf cmds).length
    rw [hstart, Nat.zero_add]
    apply Nat.mod_eq_of_lt
    have h16 : UINT16_SIZE = 65536 := rfl
    have h32 : UINT_SIZE = 4294967296 := rfl
    omega
  rw [e, hready]
  refine ⟨rfl, ?_, rfl⟩
  have hm := memRead_storeAtCursor t (rgbOf cmds)
  rw [hstart] at hm
  exact hm

/-- C4 at the frame of the specification: one WS2812 command with two pixels,
then draw-all; six bytes are published, the two pixels in wire order. -/
theorem serialReadThread_publishes_frame_witness :
    (2048 * 3 < UINT16_SIZE ∧ (createFrameBuffer 2048).buffer_size = 2048 * 3
      ∧ (createFrameBuffer 2048).pixel_ptr = 0
      ∧ (∀ c ∈ [ChannelData.ws2812 0 0 [(10, 20, 30), (40, 50, 60)] (1, 2, 3, 4)],
          c.accepted 2048)
      ∧ (rgbOf [ChannelData.ws2812 0 0 [(10, 20, 30), (40, 50, 60)] (1, 2, 3, 4)]).length
          ≤ (createFrameBuffer 2048).buffer_size)
    ∧ (serialReadThread 2048 (createFrameBuffer 2048)
        ([85, 80, 88, 76, 0, 1, 3, 0, 2, 0, 10, 20, 30, 40, 50, 60, 1, 2, 3, 4]
          ++ [85, 80, 88, 76, 0, 2])).dataReady = 6
    ∧ memRead (serialReadThread 2048 (createFrameBuffer 2048)
        ([85, 80, 88, 76, 0, 1, 3, 0, 2, 0, 10, 20, 30, 40, 50, 60, 1, 2, 3, 4]
          ++ [85, 80, 88, 76, 0, 2])).pixel_buffer 0 6 = [10, 20, 30, 40, 50, 60] :=
  have hacc : ∀ c ∈ [ChannelData.ws2812 0 0 [(10, 20, 30), (40, 50, 60)] (1, 2, 3, 4)],
      c.accepted 2048 := by
    intro c hc
    rw [List.mem_singleton] at hc
    subst hc
    show 2 ≤ 2048
    decide
  ⟨⟨by decide, rfl, rfl, hacc, by decide⟩,
    (serialReadThread_publishes_frame 2048 (createFrameBuffer 2048)
      [ChannelData.ws2812 0 0 [(10, 20, 30), (40, 50, 60)] (1, 2, 3, 4)] 0
      (by decide) rfl rfl hacc (by decide)).1,
    by
      have h := (serialReadThread_publishes_frame 2048 (createFrameBuffer 2048)
        [ChannelData.ws2812 0 0 [(10, 20, 30), (40, 50, 60)] (1, 2, 3, 4)] 0
        (by decide) rfl rfl hacc (by decide)).2.1
      exact h⟩

/-! ## Rejected commands, noise and the draw-all trailer -/

theorem doSetChannelWS2812_reject (M : Nat) (t : pbxTeleporterData)
    (numElements colorOrders lo hi : Byte) (rest : List Byte) (hne : numElements.val ≠ 3) :
    doSetChannelWS2812 M t ([numElements, colorOrders, lo, hi] ++ rest) = crcCheck t rest := by
  unfold doSetChannelWS2812
  rw [readBytes_append 4 [numElements, colorOrders, lo, hi] rest rfl (by decide)]
  have e3 : (PBWS2812Channel.ofBytes [numElements, colorOrders, lo, hi]).numElements
      = numElements.val := rfl
  simp only [e3]
  rw [if_neg (fun h => hne h.2.1)]

/-- C5, the claim as stated fails: a WS2812 command with `numElements = 4` and one
pixel is followed by a 4-byte payload and a 4-byte trailer, 8 bytes in all, yet
after the descriptor the handler reads only the 4 payload bytes (as its CRC) and
leaves the trailer `[1, 2, 3, 4]` in the stream. -/
theorem doSetChannelWS2812_unsupported_keeps_payload_length :
    (doSetChannelWS2812 2048 (createFrameBuffer 2048)
        ([4, 0, 1, 0] ++ [11, 12, 13, 14] ++ [1, 2, 3, 4] ++ [99])).2 = some [1, 2, 3, 4, 99]
    ∧ (doSetChannelWS2812 2048 (createFrameBuffer 2048)
        ([4, 0, 1, 0] ++ [11, 12, 13, 14] ++ [1, 2, 3, 4] ++ [99])).2 ≠ some [99] := by
  decide

/-- C5, amended: for a WS2812 command whose descriptor has `numElements != 3`,
`doSetChannelWS2812` reads exactly 4 bytes after the 4-byte descriptor (the read
of `crcCheck`), for every pixel count, and leaves the frame store as it was; the
declared payload is not skipped. -/
theorem doSetChannelWS2812_unsupported_reads_four (MAX_PIXELS : Nat) (t : pbxTeleporterData)
    (numElements colorOrders lo hi : Byte) (next4 rest : List Byte)
    (hne : numElements.val ≠ 3) (h4 : next4.length = 4) :
    doSetChannelWS2812 MAX_PIXELS t ([numElements, colorOrders, lo, hi] ++ next4 ++ rest)
      = (t, some rest) := by
  rw [List.append_assoc, doSetChannelWS2812_reject MAX_PIXELS t _ _ _ _ _ hne]
  unfold crcCheck
  rw [readBytes_append 4 next4 rest h4 (by decide)]

/-- C5 amended, at a concrete input: 4 elements, one pixel. -/
theorem doSetChannelWS2812_unsupported_reads_four_witness :
    (((4 : Byte)).val ≠ 3 ∧ ([11, 12, 13, 14] : List Byte).length = 4)
    ∧ (doSetChannelWS2812 2048 (createFrameBuffer 2048)
        ([4, 0, 1, 0] ++ [11, 12, 13, 14] ++ [1, 2, 3, 4, 99])).2 = some [1, 2, 3, 4, 99] :=
  ⟨⟨by decide, by decide⟩,
    congrArg Prod.snd (doSetChannelWS2812_unsupported_reads_four 2048 (createFrameBuffer 2048)
      4 0 1 0 [11, 12, 13, 14] [1, 2, 3, 4, 99] (by decide) (by decide))⟩

theorem serialReadStep_noise (M : Nat) (t : pbxTeleporterData) (b : Byte) (rest : List Byte)
    (h : b ≠ 85) : serialReadStep M t (b :: rest) = (t, some rest) := by
  unfold serialReadStep
  rw [readMagicWord_noise b rest h]

/-- C7, the code at the failing input: after the reader has dispatched a draw-all
command the 4 trailer bytes are still in the stream (`doDrawAll` makes no call of
`crcCheck`), whatever they are; and when the trailer ends in `U` (0x55) the marker
search that runs over it swallows the next marker, so that the two-pixel frame and
the draw-all that follow publish nothing. -/
theorem serialReadStep_drawAll_leaves_trailer (MAX_PIXELS : Nat) (t : pbxTeleporterData)
    (channel : Byte) (crc : Crc) (rest : List Byte) :
    serialReadStep MAX_PIXELS t (drawAllWire channel ++ crc.bytes ++ rest)
      = (doDrawAll t, some (crc.bytes ++ rest))
    ∧ (serialReadThread 2048 (createFrameBuffer 2048)
        ([85, 80, 88, 76, 0, 2] ++ [0, 0, 0, 85]
          ++ [85, 80, 88, 76, 0, 1, 3, 0, 2, 0, 10, 20, 30, 40, 50, 60, 1, 2, 3, 4]
          ++ [85, 80, 88, 76, 0, 2])).dataReady = 0 := by
  constructor
  · rw [List.append_assoc, serialReadStep_drawAll]
  · decide

/-! ## The cursor bound and `dataReady` -/

theorem storeAtCursor_pixel_ptr (t : pbxTeleporterData) (data : List Byte) :
    (storeAtCursor t data).pixel_ptr = t.pixel_ptr + data.length := rfl

theorem serialReadThread_two_ws2812 (M n : Nat) (t : pbxTeleporterData)
    (ch1 co1 ch2 co2 : Byte) (p : Byte × Byte × Byte) (crc1 crc2 : Crc)
    (hmax : M * 3 < UINT16_SIZE) (hn : n ≤ M) :
    (∀ c ∈ [ChannelData.ws2812 ch1 co1 (List.replicate n p) crc1,
            ChannelData.ws2812 ch2 co2 (List.replicate n p) crc2], c.accepted M)
    ∧ (serialReadThread M t
        (wireOf [ChannelData.ws2812 ch1 co1 (List.replicate n p) crc1,
                 ChannelData.ws2812 ch2 co2 (List.replicate n p) crc2])).pixel_ptr
      = t.pixel_ptr + (n * 3 + n * 3) := by
  have hacc : ∀ c ∈ [ChannelData.ws2812 ch1 co1 (List.replicate n p) crc1,
      ChannelData.ws2812 ch2 co2 (List.replicate n p) crc2], c.accepted M := by
    intro c hc
    simp only [List.mem_cons, List.mem_singleton, List.not_mem_nil, or_false] at hc
    rcases hc with rfl | rfl
    · show (List.replicate n p).length ≤ M
      rw [List.length_replicate]
      exact hn
    · show (List.replicate n p).length ≤ M
      rw [List.length_replicate]
      exact hn
  refine ⟨hacc, ?_⟩
  have h := serialReadThread_channelData M _ t [] hmax hacc
  rw [List.append_nil, serialReadThread_nil] at h
  rw [h, storeAtCursor_pixel_ptr]
  have e : rgbOf [ChannelData.ws2812 ch1 co1 (List.replicate n p) crc1,
      ChannelData.ws2812 ch2 co2 (List.replicate n p) crc2]
      = ws2812Payload (List.replicate n p) ++ ws2812Payload (List.replicate n p) := by
    simp [rgbOf, ChannelData.rgb]
  rw [e, List.length_append, ws2812Payload_length, List.length_replicate]

/-- C8, the code at the failing input: with `MAX_PIXELS = 2048` and a buffer of
`2048 * 3 = 6144` bytes, two accepted WS2812 commands of 2048 pixels each with no
draw-all between them leave the cursor at offset 12288, past the end of the
buffer: each handler checks the pixel count of its own command against
`MAX_PIXELS`, none checks the cursor. -/
theorem serialReadThread_cursor_passes_capacity :
    (∀ c ∈ [ChannelData.ws2812 0 0 (List.replicate 2048 (0, 0, 0)) (0, 0, 0, 0),
            ChannelData.ws2812 1 0 (List.replicate 2048 (0, 0, 0)) (0, 0, 0, 0)],
        c.accepted 2048)
    ∧ (createFrameBuffer 2048).pixel_ptr = 0
    ∧ (createFrameBuffer 2048).buffer_size = 6144
    ∧ (serialReadThread 2048 (createFrameBuffer 2048)
        (wireOf [ChannelData.ws2812 0 0 (List.replicate 2048 (0, 0, 0)) (0, 0, 0, 0),
                 ChannelData.ws2812 1 0 (List.replicate 2048 (0, 0, 0)) (0, 0, 0, 0)])).pixel_ptr
      = 12288 :=
  ⟨(serialReadThread_two_ws2812 2048 2048 (createFrameBuffer 2048) 0 0 1 0 (0, 0, 0)
      (0, 0, 0, 0) (0, 0, 0, 0) (by decide) (Nat.le_refl _)).1,
    rfl, rfl,
    (serialReadThread_two_ws2812 2048 2048 (createFrameBuffer 2048) 0 0 1 0 (0, 0, 0)
      (0, 0, 0, 0) (0, 0, 0, 0) (by decide) (Nat.le_refl _)).2⟩

theorem apa102Pixels_dataReady (n : Nat) (t : pbxTeleporterData) (input : List Byte) :
    (apa102Pixels n t input).1.dataReady = t.dataReady := by
  induction n generalizing t input with
  | zero => rfl
  | succ n ih =>
    unfold apa102Pixels
    split
    · rfl
    · split
      · rfl
      · rw [ih]

theorem doSetChannelWS2812_dataReady (M : Nat) (t : pbxTeleporterData) (input : List Byte) :
    (doSetChannelWS2812 M t input).1.dataReady = t.dataReady := by
  unfold doSetChannelWS2812
  split
  · rfl
  · simp only []
    split
    · split
      · rfl
      · rw [crcCheck_fst]
    · rw [crcCheck_fst]

theorem doSetChannelAPA102_dataReady (M : Nat) (t : pbxTeleporterData) (input : List Byte) :
    (doSetChannelAPA102 M t input).1.dataReady = t.dataReady := by
  unfold doSetChannelAPA102
  split
  · rfl
  · next d r _ =>
    simp only []
    split
    · have h := apa102Pixels_dataReady (PBAPA102DataChannel.ofBytes d).pixels t r
      split
      · next t1 h1 =>
        rw [h1] at h
        exact h
      · next t1 r1 h1 =>
        rw [h1] at h
        rw [crcCheck_fst]
        exact h
    · rw [crcCheck_fst]

theorem doSetChannelAPA102Clock_dataReady (t : pbxTeleporterData) (input : List Byte) :
    (doSetChannelAPA102Clock t input).1.dataReady = t.dataReady := by
  unfold doSetChannelAPA102Clock
  split
  · rfl
  · rw [crcCheck_fst]

/-- C9: the two data handlers (command accepted or not, read completed or not),
the clock handler and `crcCheck` leave `dataReady` as it was, and so does every
pass of the reader loop (failed marker match, unknown command code included)
except a pass that matched the marker, read a header with command `DRAW_ALL` and
ran `doDrawAll`. -/
theorem dataReady_changed_only_by_doDrawAll (MAX_PIXELS : Nat) (t : pbxTeleporterData)
    (input : List Byte) :
    (doSetChannelWS2812 MAX_PIXELS t input).1.dataReady = t.dataReady
    ∧ (doSetChannelAPA102 MAX_PIXELS t input).1.dataReady = t.dataReady
    ∧ (doSetChannelAPA102Clock t input).1.dataReady = t.dataReady
    ∧ (crcCheck t input).1.dataReady = t.dataReady
    ∧ ((serialReadStep MAX_PIXELS t input).1.dataReady = t.dataReady
      ∨ ∃ r h r1, readMagicWord input = some (true, r) ∧ readBytes 2 r = some (h, r1)
          ∧ (PBFrameHeader.ofBytes h).command = DRAW_ALL
          ∧ serialReadStep MAX_PIXELS t input = (doDrawAll t, some r1)) := by
  refine ⟨doSetChannelWS2812_dataReady _ _ _, doSetChannelAPA102_dataReady _ _ _,
    doSetChannelAPA102Clock_dataReady _ _, by rw [crcCheck_fst], ?_⟩
  unfold serialReadStep
  split
  · exact Or.inl rfl
  · exact Or.inl rfl
  · next r hr =>
    split
    · exact Or.inl rfl
    · next h r1 hh =>
      simp only []
      split
      · exact Or.inl (doSetChannelWS2812_dataReady _ _ _)
      · split
        · next hc => exact Or.inr ⟨r, h, r1, hr, hh, hc, rfl⟩
        · split
          · exact Or.inl (doSetChannelAPA102_dataReady _ _ _)
          · split
            · exact Or.inl (doSetChannelAPA102Clock_dataReady _ _)
            · exact Or.inl rfl

/-! ## The UDP responder -/

theorem toInt32_of_lt (n : Nat) (h : n < 2147483648) : toInt32 n = (n : Int) := by
  have h32 : UINT_SIZE = 4294967296 := rfl
  unfold toInt32
  rw [Nat.mod_eq_of_lt (by omega), if_pos h]

theorem ntohs_htons (p : Int) (h0 : 0 ≤ p) (h1 : p < 65536) : ((ntohs (htons p) : Nat) : Int) = p := by
  unfold ntohs htons
  rw [Int.emod_eq_of_lt h0 h1]
  obtain ⟨n, rfl⟩ := Int.eq_ofNat_of_zero_le h0
  simp only [Int.toNat_ofNat]
  have hn : n < 65536 := by omega
  have hlow : (n % 256 * 256 + n / 256) % 256 = n / 256 := by
    rw [Nat.mul_comm, Nat.mul_add_mod]
    exact Nat.mod_eq_of_lt (by omega)
  have hhigh : (n % 256 * 256 + n / 256) / 256 = n % 256 := by
    rw [Nat.mul_comm, Nat.mul_add_div (by decide), Nat.div_eq_of_lt (by omega)]
    rfl
  have hN : (n % 256 * 256 + n / 256) % 256 * 256 + (n % 256 * 256 + n / 256) / 256 % 256
      = n := by
    rw [hlow, hhigh]
    omega
  rw [hN]

/-- C10: in a pass of the responder loop in which a frame is ready
(`dataReady > 0`, and small enough for the `int` length argument) and `recvfrom`
returns a positive count with source address A, `sendto` is called with exactly
the first `dataReady` bytes of the frame buffer, and its destination is A with
the port field set to `htons(send_port)`, which for a send port in `0..65535`
stands for that port; the call is the same whatever the listen port and the
source port of the request. -/
theorem udpThreadStep_reply (t : pbxTeleporterData) (udp : udpServer) (rcv : RecvFrom)
    (hready : isDataReady t = true) (hfit : t.dataReady < 2147483648)
    (hres : 0 < rcv.res) :
    (udpThreadStep t udp rcv).2
      = some { buf := memRead t.pixel_buffer 0 t.dataReady
               len := (t.dataReady : Int)
               dest := { sin_port := htons udp.send_port, sin_addr := rcv.src.sin_addr }
               tolen := rcv.fromlen }
    ∧ (0 ≤ udp.send_port → udp.send_port < 65536 →
        ((ntohs (htons udp.send_port) : Nat) : Int) = udp.send_port)
    ∧ ∀ (listen_port : Int) (source_port : Nat),
        (udpThreadStep t { udp with listen_port := listen_port }
          { rcv with src := { rcv.src with sin_port := source_port } }).2
        = (udpThreadStep t udp rcv).2 := by
  have key : ∀ (u : udpServer) (r : RecvFrom), 0 < r.res →
      (udpThreadStep t u r).2
        = some { buf := memRead t.pixel_buffer 0 t.dataReady
                 len := (t.dataReady : Int)
                 dest := { sin_port := htons u.send_port, sin_addr := r.src.sin_addr }
                 tolen := r.fromlen } := by
    intro u r hr
    unfold udpThreadStep
    rw [if_pos hready]
    simp only [udpServerListen, udpServerSend, getDataReady]
    rw [if_pos hr, toInt32_of_lt _ hfit]
    simp
  refine ⟨key udp rcv hres, ntohs_htons udp.send_port, ?_⟩
  intro lp sp
  exact (key { udp with listen_port := lp }
    { rcv with src := { rcv.src with sin_port := sp } } hres).trans (key udp rcv hres).symm

/-- C10 at a concrete input: six bytes ready, a request from 192.168.1.1 with
source port 50000, listen port 8081, send port 8082. -/
theorem udpThreadStep_reply_witness :
    (isDataReady (doDrawAll (storeAtCursor (createFrameBuffer 2048) [10, 20, 30, 40, 50, 60]))
        = true
      ∧ (doDrawAll (storeAtCursor (createFrameBuffer 2048) [10, 20, 30, 40, 50, 60])).dataReady
          < 2147483648
      ∧ (0 : Int) < 1)
    ∧ (udpThreadStep (doDrawAll (storeAtCursor (createFrameBuffer 2048) [10, 20, 30, 40, 50, 60]))
        { listen_port := 8081, send_port := 8082, client := { sin_port := 0, sin_addr := 0 },
          clientlen := 16 }
        { res := 1, src := { sin_port := htons 50000, sin_addr := 3232235777 },
          fromlen := 16 }).2
      = some { buf := [10, 20, 30, 40, 50, 60], len := 6,
               dest := { sin_port := htons 8082, sin_addr := 3232235777 }, tolen := 16 } :=
  ⟨⟨by decide, by decide, by decide⟩,
    (udpThreadStep_reply (doDrawAll (storeAtCursor (createFrameBuffer 2048) [10, 20, 30, 40, 50, 60]))
      { listen_port := 8081, send_port := 8082, client := { sin_port := 0, sin_addr := 0 },
        clientlen := 16 }
      { res := 1, src := { sin_port := htons 50000, sin_addr := 3232235777 }, fromlen := 16 }
      (by decide) (by decide) (by decide)).1⟩

/-! ## Which datagrams are answered -/

theorem udpThreadStep_send (t : pbxTeleporterData) (udp : udpServer) (rcv : RecvFrom)
    (hready : isDataReady t = true) (hfit : t.dataReady < 2147483648) (hres : 0 < rcv.res) :
    (udpThreadStep t udp rcv).2
      = some { buf := memRead t.pixel_buffer 0 t.dataReady
               len := (t.dataReady : Int)
               dest := { sin_port := htons udp.send_port, sin_addr := rcv.src.sin_addr }
               tolen := rcv.fromlen } := by
  unfold udpThreadStep
  rw [if_pos hready]
  simp only [udpServerListen, udpServerSend, getDataReady]
  rw [if_pos hres, toInt32_of_lt _ hfit]
  simp

theorem udpThreadStep_no_send (t : pbxTeleporterData) (udp : udpServer) (rcv : RecvFrom)
    (hres : rcv.res ≤ 0) : (udpThreadStep t udp rcv).2 = none := by
  unfold udpThreadStep
  split
  · simp only [udpServerListen]
    rw [if_neg (by omega)]
  · rfl

/-- C11, the claim as stated fails: with six bytes ready, a datagram with an
empty payload is received (`recvfrom` returns 0) and no `sendto` call is made,
while a one-byte datagram from the same source is answered. -/
theorem udpThreadStep_empty_datagram_unanswered :
    isDataReady (doDrawAll (storeAtCursor (createFrameBuffer 2048) [10, 20, 30, 40, 50, 60]))
      = true
    ∧ (udpThreadStep (doDrawAll (storeAtCursor (createFrameBuffer 2048) [10, 20, 30, 40, 50, 60]))
        { listen_port := 8081, send_port := 8082, client := { sin_port := 0, sin_addr := 0 },
          clientlen := 16 }
        (recvfrom UDP_INBUFSIZE
          { payload := [], src := { sin_port := 50000, sin_addr := 3232235777 } })).2.isNone
      = true
    ∧ (udpThreadStep (doDrawAll (storeAtCursor (createFrameBuffer 2048) [10, 20, 30, 40, 50, 60]))
        { listen_port := 8081, send_port := 8082, client := { sin_port := 0, sin_addr := 0 },
          clientlen := 16 }
        (recvfrom UDP_INBUFSIZE
          { payload := [1], src := { sin_port := 50000, sin_addr := 3232235777 } })).2.isSome
      = true := by
  refine ⟨by decide, ?_, ?_⟩
  · rw [udpThreadStep_no_send _ _ _ (by decide)]
    rfl
  · rw [udpThreadStep_send _ _ _ (by decide) (by decide) (by decide)]
    rfl

/-- C11, amended: when a frame is ready (and `dataReady` fits the `int` length
argument), every received datagram with a non-empty payload that fits the
receive buffer triggers exactly one `sendto` call, the same call whatever the
bytes and their number; a datagram with an empty payload triggers none. -/
theorem udpThreadStep_answers_nonempty (t : pbxTeleporterData) (udp : udpServer)
    (d : Datagram) (hready : isDataReady t = true) (hfit : t.dataReady < 2147483648) :
    (0 < d.payload.length → d.payload.length ≤ UDP_INBUFSIZE →
      (udpThreadStep t udp (recvfrom UDP_INBUFSIZE d)).2
        = some { buf := memRead t.pixel_buffer 0 t.dataReady
                 len := (t.dataReady : Int)
                 dest := { sin_port := htons udp.send_port, sin_addr := d.src.sin_addr }
                 tolen := 16 })
    ∧ (d.payload.length = 0 →
        (udpThreadStep t udp (recvfrom UDP_INBUFSIZE d)).2 = none) := by
  constructor
  · intro h0 h1
    have e : recvfrom UDP_INBUFSIZE d
        = { res := (d.payload.length : Int), src := d.src, fromlen := 16 } := by
      unfold recvfrom
      rw [if_pos h1]
    rw [e]
    exact udpThreadStep_send t udp _ hready hfit (by simpa using h0)
  · intro h0
    apply udpThreadStep_no_send
    unfold recvfrom
    rw [if_pos (by omega)]
    simp [h0]

/-- C11 amended, at a concrete input: six bytes ready, a three-byte request. -/
theorem udpThreadStep_answers_nonempty_witness :
    (isDataReady (doDrawAll (storeAtCursor (createFrameBuffer 2048) [10, 20, 30, 40, 50, 60]))
        = true
      ∧ (doDrawAll (storeAtCursor (createFrameBuffer 2048) [10, 20, 30, 40, 50, 60])).dataReady
          < 2147483648
      ∧ 0 < ([7, 8, 9] : List Byte).length ∧ ([7, 8, 9] : List Byte).length ≤ UDP_INBUFSIZE)
    ∧ (udpThreadStep (doDrawAll (storeAtCursor (createFrameBuffer 2048) [10, 20, 30, 40, 50, 60]))
        { listen_port := 8081, send_port := 8082, client := { sin_port := 0, sin_addr := 0 },
          clientlen := 16 }
        (recvfrom UDP_INBUFSIZE
          { payload := [7, 8, 9], src := { sin_port := 50000, sin_addr := 3232235777 } })).2
      = some { buf := [10, 20, 30, 40, 50, 60], len := 6,
               dest := { sin_port := htons 8082, sin_addr := 3232235777 }, tolen := 16 } :=
  ⟨⟨by decide, by decide, by decide, by decide⟩,
    (udpThreadStep_answers_nonempty
      (doDrawAll (storeAtCursor (createFrameBuffer 2048) [10, 20, 30, 40, 50, 60]))
      { listen_port := 8081, send_port := 8082, client := { sin_port := 0, sin_addr := 0 },
        clientlen := 16 }
      { payload := [7, 8, 9], src := { sin_port := 50000, sin_addr := 3232235777 } }
      (by decide) (by decide)).1 (by decide) (by decide)⟩

/-! ## Dropped commands -/

theorem doSetChannelWS2812_oversize (M : Nat) (t : pbxTeleporterData)
    (numElements colorOrders lo hi : Byte) (rest : List Byte)
    (h : numElements.val ≠ 3 ∨ lo.val + 256 * hi.val = 0 ∨ M < lo.val + 256 * hi.val) :
    doSetChannelWS2812 M t ([numElements, colorOrders, lo, hi] ++ rest) = crcCheck t rest := by
  unfold doSetChannelWS2812
  rw [readBytes_append 4 [numElements, colorOrders, lo, hi] rest rfl (by decide)]
  have e3 : (PBWS2812Channel.ofBytes [numElements, colorOrders, lo, hi]).numElements
      = numElements.val := rfl
  have ep : (PBWS2812Channel.ofBytes [numElements, colorOrders, lo, hi]).pixels
      = lo.val + 256 * hi.val := rfl
  simp only [e3, ep]
  rw [if_neg]
  rintro ⟨h1, h2, h3⟩
  rcases h with h | h | h
  · exact h h2
  · exact h1 h
  · omega

theorem doSetChannelAPA102_reject (M : Nat) (t : pbxTeleporterData)
    (f0 f1 f2 f3 colorOrders lo hi : Byte) (rest : List Byte)
    (h : f0.val + 256 * f1.val + 65536 * f2.val + 16777216 * f3.val = 0
      ∨ M < lo.val + 256 * hi.val) :
    doSetChannelAPA102 M t ([f0, f1, f2, f3, colorOrders, lo, hi] ++ rest) = crcCheck t rest := by
  unfold doSetChannelAPA102
  rw [readBytes_append 7 [f0, f1, f2, f3, colorOrders, lo, hi] rest rfl (by decide)]
  have ef : (PBAPA102DataChannel.ofBytes [f0, f1, f2, f3, colorOrders, lo, hi]).frequency
      = f0.val + 256 * f1.val + 65536 * f2.val + 16777216 * f3.val := rfl
  have ep : (PBAPA102DataChannel.ofBytes [f0, f1, f2, f3, colorOrders, lo, hi]).pixels
      = lo.val + 256 * hi.val := rfl
  simp only [ef, ep]
  rw [if_neg]
  rintro ⟨h1, h2⟩
  rcases h with h | h
  · exact h1 h
  · omega

theorem crcCheck_four (t : pbxTeleporterData) (next4 rest : List Byte)
    (h4 : next4.length = 4) : crcCheck t (next4 ++ rest) = (t, some rest) := by
  unfold crcCheck
  rw [readBytes_append 4 next4 rest h4 (by decide)]

/-- C14, the claim as stated fails: an APA102-data command with frequency 0 and one
pixel is followed by a 4-byte payload and the trailer `[9, 9, 9, 9]`, and a
WS2812 command of two pixels under `MAX_PIXELS = 1` by a 6-byte payload and that
trailer; in both cases the handler reads just 4 bytes after the descriptor, so
that payload or trailer bytes are still in the stream instead of only `[99]`. -/
theorem dropped_data_command_keeps_payload_in_stream :
    (doSetChannelAPA102 2048 (createFrameBuffer 2048)
        ([0, 0, 0, 0, 0, 1, 0] ++ [255, 1, 2, 3] ++ [9, 9, 9, 9] ++ [99])).2
      = some [9, 9, 9, 9, 99]
    ∧ (doSetChannelWS2812 1 (createFrameBuffer 1)
        ([3, 0, 2, 0] ++ [1, 2, 3, 4, 5, 6] ++ [9, 9, 9, 9] ++ [99])).2
      = some [5, 6, 9, 9, 9, 9, 99] := by
  decide

/-- C14, amended: for a channel-data command that is dropped (WS2812 with a
pixel count above `MAX_PIXELS`; APA102 data with frequency 0 or a pixel count
above `MAX_PIXELS`), the handler reads exactly 4 bytes after the descriptor (the
read of `crcCheck`) and leaves the frame store as it was; the declared payload is
not skipped, the next read position is the fifth byte after the descriptor. -/
theorem dropped_data_command_reads_four (MAX_PIXELS : Nat) (t : pbxTeleporterData)
    (numElements colorOrders lo hi f0 f1 f2 f3 : Byte) (next4 rest : List Byte)
    (h4 : next4.length = 4) :
    (MAX_PIXELS < lo.val + 256 * hi.val →
      doSetChannelWS2812 MAX_PIXELS t ([numElements, colorOrders, lo, hi] ++ next4 ++ rest)
        = (t, some rest))
    ∧ (f0.val + 256 * f1.val + 65536 * f2.val + 16777216 * f3.val = 0
        ∨ MAX_PIXELS < lo.val + 256 * hi.val →
      doSetChannelAPA102 MAX_PIXELS t ([f0, f1, f2, f3, colorOrders, lo, hi] ++ next4 ++ rest)
        = (t, some rest)) := by
  constructor
  · intro h
    rw [List.append_assoc, doSetChannelWS2812_oversize MAX_PIXELS t _ _ _ _ _ (Or.inr (Or.inr h)),
      crcCheck_four t next4 rest h4]
  · intro h
    rw [List.append_assoc, doSetChannelAPA102_reject MAX_PIXELS t _ _ _ _ _ _ _ _ h,
      crcCheck_four t next4 rest h4]

/-- C14 amended, at a concrete input: the two dropped commands of the
counterexample. -/
theorem dropped_data_command_reads_four_witness :
    (([1, 2, 3, 4] : List Byte).length = 4 ∧ 1 < ((2 : Byte)).val + 256 * ((0 : Byte)).val)
    ∧ (doSetChannelWS2812 1 (createFrameBuffer 1)
        ([3, 0, 2, 0] ++ [1, 2, 3, 4] ++ [5, 6, 9, 9, 9, 9, 99])).2
      = some [5, 6, 9, 9, 9, 9, 99]
    ∧ (doSetChannelAPA102 1 (createFrameBuffer 1)
        ([0, 0, 0, 0, 0, 2, 0] ++ [1, 2, 3, 4] ++ [5, 6, 9, 9, 9, 9, 99])).2
      = some [5, 6, 9, 9, 9, 9, 99] :=
  ⟨⟨by decide, by decide⟩,
    congrArg Prod.snd ((dropped_data_command_reads_four 1 (createFrameBuffer 1) 3 0 2 0
      0 0 0 0 [1, 2, 3, 4] [5, 6, 9, 9, 9, 9, 99] (by decide)).1 (by decide)),
    congrArg Prod.snd ((dropped_data_command_reads_four 1 (createFrameBuffer 1) 3 0 2 0
      0 0 0 0 [1, 2, 3, 4] [5, 6, 9, 9, 9, 9, 99] (by decide)).2 (Or.inl (by decide)))⟩

/-- C16: a pass of the reader loop over a WS2812 command with `numElements != 3`,
pixel count 0 or pixel count above `MAX_PIXELS`, over an APA102-data command with
frequency 0 or pixel count above `MAX_PIXELS`, or over an APA102-clock command
leaves the frame store (buffer, cursor, `dataReady`) as it was, whatever follows
the descriptor; and a pass over a header whose command code is none of 1, 2, 3, 4
leaves it as it was and reads nothing after the header. -/
theorem dropped_commands_leave_store (MAX_PIXELS : Nat) (t : pbxTeleporterData)
    (channel command numElements colorOrders lo hi f0 f1 f2 f3 : Byte) (rest : List Byte) :
    (numElements.val ≠ 3 ∨ lo.val + 256 * hi.val = 0 ∨ MAX_PIXELS < lo.val + 256 * hi.val →
      (serialReadStep MAX_PIXELS t
        (magicWord ++ [channel, 1] ++ ([numElements, colorOrders, lo, hi] ++ rest))).1 = t)
    ∧ (f0.val + 256 * f1.val + 65536 * f2.val + 16777216 * f3.val = 0
        ∨ MAX_PIXELS < lo.val + 256 * hi.val →
      (serialReadStep MAX_PIXELS t
        (magicWord ++ [channel, 3] ++ ([f0, f1, f2, f3, colorOrders, lo, hi] ++ rest))).1 = t)
    ∧ (serialReadStep MAX_PIXELS t (magicWord ++ [channel, 4] ++ rest)).1 = t
    ∧ (command.val ≠ 1 ∧ command.val ≠ 2 ∧ command.val ≠ 3 ∧ command.val ≠ 4 →
      serialReadStep MAX_PIXELS t (magicWord ++ [channel, command] ++ rest) = (t, some rest)) := by
  refine ⟨?_, ?_, ?_, ?_⟩
  · intro h
    rw [serialReadStep_ws2812, doSetChannelWS2812_oversize MAX_PIXELS t _ _ _ _ _ h, crcCheck_fst]
  · intro h
    rw [serialReadStep_apa102, doSetChannelAPA102_reject MAX_PIXELS t _ _ _ _ _ _ _ _ h,
      crcCheck_fst]
  · rw [serialReadStep_apa102Clock]
    unfold doSetChannelAPA102Clock
    split
    · rfl
    · rw [crcCheck_fst]
  · rintro ⟨h1, h2, h3, h4⟩
    rw [serialReadStep_header, if_neg (show ¬ command.val = SET_CHANNEL_WS2812 from h1),
      if_neg (show ¬ command.val = DRAW_ALL from h2),
      if_neg (show ¬ command.val = SET_CHANNEL_APA102_DATA from h3),
      if_neg (show ¬ command.val = SET_CHANNEL_APA102_CLOCK from h4)]

/-- C16 at concrete inputs: a 4-element WS2812 command, an APA102-data command
with frequency 0, and a header with command code 9, from a store holding three
bytes. -/
theorem dropped_commands_leave_store_witness :
    ((((4 : Byte)).val ≠ 3 ∨ ((1 : Byte)).val + 256 * ((0 : Byte)).val = 0
        ∨ 2048 < ((1 : Byte)).val + 256 * ((0 : Byte)).val)
      ∧ (((0 : Byte)).val + 256 * ((0 : Byte)).val + 65536 * ((0 : Byte)).val
          + 16777216 * ((0 : Byte)).val = 0 ∨ 2048 < ((1 : Byte)).val + 256 * ((0 : Byte)).val)
      ∧ (((9 : Byte)).val ≠ 1 ∧ ((9 : Byte)).val ≠ 2 ∧ ((9 : Byte)).val ≠ 3
          ∧ ((9 : Byte)).val ≠ 4))
    ∧ (serialReadStep 2048 (storeAtCursor (createFrameBuffer 2048) [7, 8, 9])
        ([85, 80, 88, 76] ++ [0, 1] ++ ([4, 0, 1, 0] ++ [1, 2, 3, 4, 9, 9, 9, 9]))).1.pixel_ptr = 3
    ∧ (serialReadStep 2048 (storeAtCursor (createFrameBuffer 2048) [7, 8, 9])
        ([85, 80, 88, 76] ++ [0, 3] ++ ([0, 0, 0, 0, 0, 1, 0] ++ [1, 2, 3, 4, 9, 9, 9, 9]))).1.pixel_ptr
      = 3
    ∧ (serialReadStep 2048 (storeAtCursor (createFrameBuffer 2048) [7, 8, 9])
        ([85, 80, 88, 76] ++ [0, 9] ++ [1, 2, 3, 4, 9, 9, 9, 9])).2 = some [1, 2, 3, 4, 9, 9, 9, 9] :=
  ⟨⟨by decide, by decide, by decide⟩,
    congrArg pbxTeleporterData.pixel_ptr
      ((dropped_commands_leave_store 2048 (storeAtCursor (createFrameBuffer 2048) [7, 8, 9])
        0 9 4 0 1 0 0 0 0 0 [1, 2, 3, 4, 9, 9, 9, 9]).1 (by decide)),
    congrArg pbxTeleporterData.pixel_ptr
      ((dropped_commands_leave_store 2048 (storeAtCursor (createFrameBuffer 2048) [7, 8, 9])
        0 9 4 0 1 0 0 0 0 0 [1, 2, 3, 4, 9, 9, 9, 9]).2.1 (by decide)),
    congrArg Prod.snd
      ((dropped_commands_leave_store 2048 (storeAtCursor (createFrameBuffer 2048) [7, 8, 9])
        0 9 4 0 1 0 0 0 0 0 [1, 2, 3, 4, 9, 9, 9, 9]).2.2.2 (by decide))⟩

/-! ## Trailers -/

theorem serialReadStep_clock (M : Nat) (t : pbxTeleporterData) (channel : Byte)
    (frequency : Nat) (crc : Crc) (rest : List Byte) :
    serialReadStep M t ((Command.clock channel frequency crc).wire ++ rest) = (t, some rest) := by
  have e : (Command.clock channel frequency crc).wire ++ rest
      = magicWord ++ [channel, 4] ++ (u32le frequency ++ (crc.bytes ++ rest)) := by
    simp [Command.wire]
  rw [e, serialReadStep_apa102Clock]
  unfold doSetChannelAPA102Clock
  rw [readBytes_append 4 (u32le frequency) _ rfl (by decide)]
  exact crcCheck_append t crc rest

theorem serialReadStep_command (M : Nat) (t : pbxTeleporterData) (c : Command)
    (rest : List Byte) (hmax : M * 3 < UINT16_SIZE) (hacc : c.accepted M) :
    serialReadStep M t (c.wire ++ rest) = (storeAtCursor t c.rgb, some rest) := by
  cases c with
  | data d => exact serialReadStep_channelData M t d rest hmax hacc
  | clock channel frequency crc =>
    rw [serialReadStep_clock]
    show (t, some rest) = (storeAtCursor t [], some rest)
    rw [storeAtCursor_nil]

theorem serialReadThread_commands (M : Nat) (cmds : List Command)
    (t : pbxTeleporterData) (rest : List Byte) (hmax : M * 3 < UINT16_SIZE)
    (hacc : ∀ c ∈ cmds, c.accepted M) :
    serialReadThread M t (commandsWire cmds ++ rest)
      = serialReadThread M (storeAtCursor t (commandsRGB cmds)) rest := by
  induction cmds generalizing t with
  | nil => simp [commandsWire, commandsRGB, storeAtCursor_nil]
  | cons c cs ih =>
    have e1 : commandsWire (c :: cs) ++ rest = c.wire ++ (commandsWire cs ++ rest) := by
      simp [commandsWire]
    have e2 : commandsRGB (c :: cs) = c.rgb ++ commandsRGB cs := by
      simp [commandsRGB]
    rw [e1, e2, serialReadThread_step M t _ _ _
      (serialReadStep_command M t c _ hmax (hacc c (List.mem_cons_self c cs))),
      ih _ (fun d hd => hacc d (List.mem_cons_of_mem c hd)), storeAtCursor_append]

theorem Command.withCrc_rgb (k : Crc) (c : Command) : (c.withCrc k).rgb = c.rgb := by
  cases c with
  | data d => cases d <;> rfl
  | clock _ _ _ => rfl

theorem Command.withCrc_accepted (M : Nat) (k : Crc) (c : Command) (h : c.accepted M) :
    (c.withCrc k).accepted M := by
  cases c with
  | data d => cases d <;> exact h
  | clock _ _ _ => trivial

theorem retrailer_rgb (cmds : List Command) (crcs : List Crc) :
    commandsRGB (retrailer cmds crcs) = commandsRGB cmds := by
  induction cmds generalizing crcs with
  | nil => rfl
  | cons c cs ih =>
    cases crcs with
    | nil => rfl
    | cons k ks =>
      have e1 : commandsRGB (retrailer (c :: cs) (k :: ks))
          = (c.withCrc k).rgb ++ commandsRGB (retrailer cs ks) := by
        simp [commandsRGB, retrailer]
      have e2 : commandsRGB (c :: cs) = c.rgb ++ commandsRGB cs := by
        simp [commandsRGB]
      rw [e1, e2, ih, Command.withCrc_rgb]

theorem retrailer_accepted (M : Nat) (cmds : List Command) (crcs : List Crc)
    (h : ∀ c ∈ cmds, c.accepted M) : ∀ c ∈ retrailer cmds crcs, c.accepted M := by
  induction cmds generalizing crcs with
  | nil =>
    intro c hc
    simp [retrailer] at hc
  | cons c cs ih =>
    cases crcs with
    | nil => exact h
    | cons k ks =>
      intro d hd
      simp only [retrailer, List.mem_cons] at hd
      rcases hd with rfl | hd
      · exact Command.withCrc_accepted M k c (h c (List.mem_cons_self c cs))
      · exact ih ks (fun e he => h e (List.mem_cons_of_mem c he)) d hd

/-- C15, the claim as stated fails: two streams made of the same two well-formed
WS2812 commands (the first with 4 elements per pixel, so dropped; the second with
two RGB pixels) that differ only in the last trailer byte of the first command
end in different frame stores: with trailer `00 00 00 00` the second command is
decoded (cursor 6), with trailer `00 00 00 55` the marker search that runs over
the trailer swallows the `U` of the next marker (cursor 0). -/
theorem serialReadThread_trailer_of_dropped_command_matters :
    (serialReadThread 2048 (createFrameBuffer 2048)
        ([85, 80, 88, 76, 0, 1, 4, 0, 1, 0, 1, 2, 3, 4] ++ [0, 0, 0, 0]
          ++ [85, 80, 88, 76, 0, 1, 3, 0, 2, 0, 10, 20, 30, 40, 50, 60, 1, 2, 3, 4])).pixel_ptr = 6
    ∧ (serialReadThread 2048 (createFrameBuffer 2048)
        ([85, 80, 88, 76, 0, 1, 4, 0, 1, 0, 1, 2, 3, 4] ++ [0, 0, 0, 85]
          ++ [85, 80, 88, 76, 0, 1, 3, 0, 2, 0, 10, 20, 30, 40, 50, 60, 1, 2, 3, 4])).pixel_ptr = 0 := by
  decide

/-- C15, amended: for every two byte streams made of the same sequence of
well-formed accepted channel-data commands and APA102-clock commands, followed
by the same bytes, that differ only in the values of the 4-byte trailers (where
`MAX_PIXELS * 3` fits the `uint16_t data_length`), the reader loop ends in the
same frame store. -/
theorem serialReadThread_ignores_trailers_it_reads (MAX_PIXELS : Nat) (t : pbxTeleporterData)
    (cmds : List Command) (crcs : List Crc) (rest : List Byte)
    (hmax : MAX_PIXELS * 3 < UINT16_SIZE) (hacc : ∀ c ∈ cmds, c.accepted MAX_PIXELS) :
    serialReadThread MAX_PIXELS t (commandsWire (retrailer cmds crcs) ++ rest)
      = serialReadThread MAX_PIXELS t (commandsWire cmds ++ rest) := by
  rw [serialReadThread_commands MAX_PIXELS _ t rest hmax
      (retrailer_accepted MAX_PIXELS cmds crcs hacc),
    serialReadThread_commands MAX_PIXELS cmds t rest hmax hacc, retrailer_rgb]

/-- C15 amended, at a concrete input: a two-pixel WS2812 command and a clock
command, trailers `(1, 2, 3, 4)` and `(5, 6, 7, 8)` against `(0, 0, 0, 85)` and
`(85, 80, 88, 76)`, then a draw-all header. -/
theorem serialReadThread_ignores_trailers_it_reads_witness :
    (2048 * 3 < UINT16_SIZE
      ∧ ∀ c ∈ [Command.data (ChannelData.ws2812 0 0 [(10, 20, 30), (40, 50, 60)] (1, 2, 3, 4)),
               Command.clock 0 800000 (5, 6, 7, 8)], c.accepted 2048)
    ∧ (serialReadThread 2048 (createFrameBuffer 2048)
        (commandsWire
          [Command.data (ChannelData.ws2812 0 0 [(10, 20, 30), (40, 50, 60)] (0, 0, 0, 85)),
           Command.clock 0 800000 (85, 80, 88, 76)] ++ drawAllWire 0)).dataReady
      = (serialReadThread 2048 (createFrameBuffer 2048)
        (commandsWire
          [Command.data (ChannelData.ws2812 0 0 [(10, 20, 30), (40, 50, 60)] (1, 2, 3, 4)),
           Command.clock 0 800000 (5, 6, 7, 8)] ++ drawAllWire 0)).dataReady :=
  have hacc : ∀ c ∈ [Command.data (ChannelData.ws2812 0 0 [(10, 20, 30), (40, 50, 60)] (1, 2, 3, 4)),
      Command.clock 0 800000 (5, 6, 7, 8)], c.accepted 2048 := by
    intro c hc
    simp only [List.mem_cons, List.mem_singleton, List.not_mem_nil, or_false] at hc
    rcases hc with rfl | rfl
    · show 2 ≤ 2048
      decide
    · trivial
  ⟨⟨by decide, hacc⟩,
    congrArg pbxTeleporterData.dataReady
      (serialReadThread_ignores_trailers_it_reads 2048 (createFrameBuffer 2048)
        [Command.data (ChannelData.ws2812 0 0 [(10, 20, 30), (40, 50, 60)] (1, 2, 3, 4)),
         Command.clock 0 800000 (5, 6, 7, 8)]
        [(0, 0, 0, 85), (85, 80, 88, 76)] (drawAllWire 0) (by decide) hacc)⟩

/-! ## Two draw-alls in a row -/

/-- C18: for every frame store, after a draw-all (whatever `dataReady` it
published) a second draw-all reached with the cursor where the first left it
leaves `dataReady = 0` and cursor 0; `isDataReady` is then false and a pass of
the responder loop makes no `sendto` call and leaves the server record alone;
the reader loop over two draw-all headers in a row ends there. -/
theorem doDrawAll_twice_nothing_ready (MAX_PIXELS : Nat) (t t1 : pbxTeleporterData)
    (channel1 channel2 : Byte) (udp : udpServer) (rcv : RecvFrom)
    (hcursor : t1.pixel_ptr = (doDrawAll t).pixel_ptr) :
    (doDrawAll t1).dataReady = 0 ∧ (doDrawAll t1).pixel_ptr = 0
    ∧ isDataReady (doDrawAll t1) = false
    ∧ udpThreadStep (doDrawAll t1) udp rcv = (udp, none)
    ∧ serialReadThread MAX_PIXELS t (drawAllWire channel1 ++ drawAllWire channel2)
        = doDrawAll (doDrawAll t) := by
  have h0 : (doDrawAll t1).dataReady = 0 := by
    show t1.pixel_ptr % UINT_SIZE = 0
    rw [hcursor]
    rfl
  have hnot : isDataReady (doDrawAll t1) = false := by
    unfold isDataReady
    rw [h0]
    rfl
  refine ⟨h0, rfl, hnot, ?_, ?_⟩
  · unfold udpThreadStep
    rw [hnot]
    rfl
  · have hs := serialReadStep_drawAll MAX_PIXELS (doDrawAll t) channel2 []
    rw [List.append_nil] at hs
    rw [serialReadThread_step MAX_PIXELS t _ _ _
        (serialReadStep_drawAll MAX_PIXELS t channel1 (drawAllWire channel2)),
      serialReadThread_step MAX_PIXELS _ _ _ _ hs, serialReadThread_nil]

/-- C18 at a concrete input: six bytes in the buffer, two draw-alls. -/
theorem doDrawAll_twice_nothing_ready_witness :
    (doDrawAll (storeAtCursor (createFrameBuffer 2048) [10, 20, 30, 40, 50, 60])).pixel_ptr
      = (doDrawAll (storeAtCursor (createFrameBuffer 2048) [10, 20, 30, 40, 50, 60])).pixel_ptr
    ∧ (doDrawAll (storeAtCursor (createFrameBuffer 2048) [10, 20, 30, 40, 50, 60])).dataReady = 6
    ∧ (doDrawAll (doDrawAll
        (storeAtCursor (createFrameBuffer 2048) [10, 20, 30, 40, 50, 60]))).dataReady = 0
    ∧ isDataReady (doDrawAll (doDrawAll
        (storeAtCursor (createFrameBuffer 2048) [10, 20, 30, 40, 50, 60]))) = false :=
  ⟨rfl, by decide,
    (doDrawAll_twice_nothing_ready 2048
      (storeAtCursor (createFrameBuffer 2048) [10, 20, 30, 40, 50, 60])
      (doDrawAll (storeAtCursor (createFrameBuffer 2048) [10, 20, 30, 40, 50, 60])) 0 0
      { listen_port := 8081, send_port := 8082, client := { sin_port := 0, sin_addr := 0 },
        clientlen := 16 }
      { res := 1, src := { sin_port := 0, sin_addr := 0 }, fromlen := 16 } rfl).1,
    (doDrawAll_twice_nothing_ready 2048
      (storeAtCursor (createFrameBuffer 2048) [10, 20, 30, 40, 50, 60])
      (doDrawAll (storeAtCursor (createFrameBuffer 2048) [10, 20, 30, 40, 50, 60])) 0 0
      { listen_port := 8081, send_port := 8082, client := { sin_port := 0, sin_addr := 0 },
        clientlen := 16 }
      { res := 1, src := { sin_port := 0, sin_addr := 0 }, fromlen := 16 } rfl).2.2.1⟩

/-! ## Start-up and the ports dialog -/

/-- C12, the code at the failing input: when `CreateFile` fails, `serialOpen`
returns `INVALID_HANDLE_VALUE`, which is not the `NULL` that `start` compares
with, so `start` goes on to `_beginthreadex` for the reader thread whatever the
other answers of the system are; with the thread and the UDP server created it
returns TRUE, holding `INVALID_HANDLE_VALUE` as its serial handle. -/
theorem start_goes_on_after_failed_serialOpen (w : Win32) (loaded : pbxSettings)
    (a : Teleporter) :
    serialOpen { w with CreateFile := INVALID_HANDLE_VALUE }
      = (INVALID_HANDLE_VALUE, [Call.CreateFile])
    ∧ Call.beginthreadex_serialReadThread
        ∈ (start { w with CreateFile := INVALID_HANDLE_VALUE } loaded a).2.2
    ∧ (start { CreateFile := INVALID_HANDLE_VALUE, GetCommState := true, SetCommState := true,
               SetCommTimeouts := true, serialThread := 200, WSAStartup := 0, socket := 300,
               bind := 0, udpThread := 400 } loaded a).1 = true
    ∧ (start { CreateFile := INVALID_HANDLE_VALUE, GetCommState := true, SetCommState := true,
               SetCommTimeouts := true, serialThread := 200, WSAStartup := 0, socket := 300,
               bind := 0, udpThread := 400 } loaded a).2.2
        = [Call.settingsLoad, Call.CreateFile, Call.beginthreadex_serialReadThread,
           Call.WSAStartup, Call.socket, Call.setsockopt 300, Call.bind 300,
           Call.beginthreadex_udpThread, Call.PurgeComm INVALID_HANDLE_VALUE] := by
  have hs : serialOpen { w with CreateFile := INVALID_HANDLE_VALUE }
      = (INVALID_HANDLE_VALUE, [Call.CreateFile]) := by
    unfold serialOpen
    rw [if_pos rfl]
  refine ⟨hs, ?_, rfl, rfl⟩
  unfold start
  simp only [hs]
  rw [if_neg (by decide)]
  split
  · simp
  · split <;> simp

/-- C13, the code at the failing input: the serial device opens (handle 100), the
reader thread is spawned (handle 200), then `WSAStartup` fails so that
`createUdpServer` returns `NULL`; `start` returns FALSE with the run flag set,
the serial handle and the thread handle still held, and without a call of
`CloseHandle` on the serial handle or of `WaitForSingleObject` on the thread. -/
theorem start_failure_leaves_reader_running :
    (createUdpServer
        { CreateFile := 100, GetCommState := true, SetCommState := true,
          SetCommTimeouts := true, serialThread := 200, WSAStartup := 1, socket := 300,
          bind := 0, udpThread := 400 } 8081 8082).1.isNone = true
    ∧ (start
        { CreateFile := 100, GetCommState := true, SetCommState := true,
          SetCommTimeouts := true, serialThread := 200, WSAStartup := 1, socket := 300,
          bind := 0, udpThread := 400 }
        { listenPort := 8081, sendPort := 8082, maxPixels := 2048 }
        { runFlag := false, frame := createFrameBuffer 2048,
          serialHandle := INVALID_HANDLE_VALUE, serialThread := 0, udp := none,
          settings := { listenPort := 8081, sendPort := 8082, maxPixels := 2048 } }).1 = false
    ∧ (start
        { CreateFile := 100, GetCommState := true, SetCommState := true,
          SetCommTimeouts := true, serialThread := 200, WSAStartup := 1, socket := 300,
          bind := 0, udpThread := 400 }
        { listenPort := 8081, sendPort := 8082, maxPixels := 2048 }
        { runFlag := false, frame := createFrameBuffer 2048,
          serialHandle := INVALID_HANDLE_VALUE, serialThread := 0, udp := none,
          settings := { listenPort := 8081, sendPort := 8082, maxPixels := 2048 } }).2.2
      = [Call.settingsLoad, Call.CreateFile, Call.GetCommState 100, Call.SetCommState 100,
         Call.SetCommTimeouts 100, Call.beginthreadex_serialReadThread, Call.WSAStartup]
    ∧ (start
        { CreateFile := 100, GetCommState := true, SetCommState := true,
          SetCommTimeouts := true, serialThread := 200, WSAStartup := 1, socket := 300,
          bind := 0, udpThread := 400 }
        { listenPort := 8081, sendPort := 8082, maxPixels := 2048 }
        { runFlag := false, frame := createFrameBuffer 2048,
          serialHandle := INVALID_HANDLE_VALUE, serialThread := 0, udp := none,
          settings := { listenPort := 8081, sendPort := 8082, maxPixels := 2048 } }).2.1.runFlag
      = true
    ∧ (start
        { CreateFile := 100, GetCommState := true, SetCommState := true,
          SetCommTimeouts := true, serialThread := 200, WSAStartup := 1, socket := 300,
          bind := 0, udpThread := 400 }
        { listenPort := 8081, sendPort := 8082, maxPixels := 2048 }
        { runFlag := false, frame := createFrameBuffer 2048,
          serialHandle := INVALID_HANDLE_VALUE, serialThread := 0, udp := none,
          settings := { listenPort := 8081, sendPort := 8082, maxPixels := 2048 } }).2.1.serialHandle
      = 100
    ∧ (start
        { CreateFile := 100, GetCommState := true, SetCommState := true,
          SetCommTimeouts := true, serialThread := 200, WSAStartup := 1, socket := 300,
          bind := 0, udpThread := 400 }
        { listenPort := 8081, sendPort := 8082, maxPixels := 2048 }
        { runFlag := false, frame := createFrameBuffer 2048,
          serialHandle := INVALID_HANDLE_VALUE, serialThread := 0, udp := none,
          settings := { listenPort := 8081, sendPort := 8082, maxPixels := 2048 } }).2.1.serialThread
      = 200 := by
  decide

/-- C17, the code at the failing inputs: `readPortsDialog` returns TRUE exactly
when the send port entered equals the stored send port or the listen port
entered equals the stored listen port (an empty field counting as 8082 or 8081),
and the settings then hold the values entered; with 8082 and 8081 stored,
entering "8082" and "8081" returns TRUE and entering "9000" and "9001" returns
FALSE. -/
theorem readPortsDialog_returns_true_when_equal (s : pbxSettings)
    (sendText listenText : List Nat) :
    (readPortsDialog s sendText listenText).1
      = (decide ((if (WM_GETTEXT 10 sendText).length = 0 then DEFAULT_SEND_PORT
            else _wtoi (WM_GETTEXT 10 sendText)) = s.sendPort)
          || decide ((if (WM_GETTEXT 10 listenText).length = 0 then DEFAULT_LISTEN_PORT
            else _wtoi (WM_GETTEXT 10 listenText)) = s.listenPort))
    ∧ (readPortsDialog s sendText listenText).2
      = { s with
          sendPort := if (WM_GETTEXT 10 sendText).length = 0 then DEFAULT_SEND_PORT
            else _wtoi (WM_GETTEXT 10 sendText)
          listenPort := if (WM_GETTEXT 10 listenText).length = 0 then DEFAULT_LISTEN_PORT
            else _wtoi (WM_GETTEXT 10 listenText) }
    ∧ readPortsDialog { listenPort := 8081, sendPort := 8082, maxPixels := 2048 }
        [56, 48, 56, 50] [56, 48, 56, 49]
      = (true, { listenPort := 8081, sendPort := 8082, maxPixels := 2048 })
    ∧ readPortsDialog { listenPort := 8081, sendPort := 8082, maxPixels := 2048 }
        [57, 48, 48, 48] [57, 48, 48, 49]
      = (false, { listenPort := 9001, sendPort := 9000, maxPixels := 2048 }) := by
  refine ⟨?_, rfl, by decide, by decide⟩
  simp [readPortsDialog]

/-! ## Reads that succeed do so whatever follows -/

theorem noisePasses_without_U (M : Nat) (t : pbxTeleporterData) (noise : List Byte)
    (hnoise : ∀ b ∈ noise, b ≠ 85) : noisePasses M noise.length t noise = some t := by
  induction noise with
  | nil => rfl
  | cons b bs ih =>
    simp only [List.length_cons, noisePasses]
    rw [serialReadStep_noise M t b bs (hnoise b (List.mem_cons_self b bs))]
    exact ih (fun c hc => hnoise c (List.mem_cons_of_mem b hc))

end PbxTeleporter
